import Mathlib

/-!
Verification development for the net-weaver repository.

The definitions below are a shallow embedding of the repository's core:
the vendor CLI parsers (`src/server/src/parsers/*.ts`), the per-device
collection route (`src/server/src/routes/collection.ts`), the topology
auto-link sweep (`src/server/src/routes/topology.ts`), and the
force-directed layout (`src/lib/topology.ts`).  JavaScript strings are
Lean `String`s, JS `null`/`undefined` is `Option`, timestamps are `Nat`
(each `new Date().toISOString()` call is one abstract tick), uuids are
`Nat` drawn from an explicit fresh counter, and SQL tables are Lean
lists of row structures.
-/

set_option maxRecDepth 8000

namespace NetWeaver

/-! ## JavaScript string primitives -/

/-- Whitespace as matched by the JS regex class `\s` (ASCII part; the
inputs of interest are ASCII). -/
def jsSpace (c : Char) : Bool :=
  c = ' ' || c = '\t' || c = '\n' || c = '\r' || c = '\x0b' || c = '\x0c'

/-- JS `String.prototype.trim` on the character list. -/
def jsTrimList (cs : List Char) : List Char :=
  ((cs.dropWhile jsSpace).reverse.dropWhile jsSpace).reverse

/-- JS `String.prototype.trim`. -/
def jsTrim (s : String) : String :=
  String.mk (jsTrimList s.toList)

/-- JS `s.split(c)` for a single-character separator (keeps empty pieces). -/
def splitOnCharAux (sep : Char) : List Char → List Char → List String
  | [], acc => [String.mk acc.reverse]
  | c :: cs, acc =>
      if c = sep then String.mk acc.reverse :: splitOnCharAux sep cs []
      else splitOnCharAux sep cs (c :: acc)

/-- JS `s.split('\n')` (and `s.split('.')`), exact semantics including
empty pieces. -/
def splitOnChar (sep : Char) (s : String) : List String :=
  splitOnCharAux sep s.toList []

/-- Tokenisation used by every parser:
`line.split(/\s+/).filter(p => p.length > 0)`.  Splitting on whitespace
runs and dropping empties is exactly "the whitespace-separated words". -/
def wsTokensAux : List Char → List Char → List String
  | [], acc => if acc.isEmpty then [] else [String.mk acc.reverse]
  | c :: cs, acc =>
      if jsSpace c then
        if acc.isEmpty then wsTokensAux cs []
        else String.mk acc.reverse :: wsTokensAux cs []
      else wsTokensAux cs (c :: acc)

def wsTokens (s : String) : List String :=
  wsTokensAux s.toList []

/-- JS `String.prototype.startsWith` (case sensitive). -/
def jsStartsWith (s pre : String) : Bool :=
  pre.toList.isPrefixOf s.toList

/-- Substring containment on char lists (semantics of SQL
`LIKE '%needle%'` for a needle without LIKE metacharacters, and of JS
`String.prototype.includes`). -/
def containsLC : List Char → List Char → Bool
  | hay, needle =>
      needle.isPrefixOf hay ||
        match hay with
        | [] => false
        | _ :: t => containsLC t needle

/-- Case-insensitive equality, as in SQL `LOWER(a) = LOWER(b)`. -/
def eqCI (a b : String) : Bool :=
  a.toList.map Char.toLower == b.toList.map Char.toLower

/-- Case-insensitive containment, as in SQL
`LOWER(hay) LIKE LOWER('%needle%')` (needle free of LIKE metacharacters)
and JS `hay.toLowerCase().includes(needle.toLowerCase())`. -/
def containsCI (hay needle : String) : Bool :=
  containsLC (hay.toList.map Char.toLower) (needle.toList.map Char.toLower)

/-- Case-insensitive "starts with", the meaning of an anchored
alternation of literal alternatives under the `/i` flag (the stored
alternative must be lowercase). -/
def startsWithCI (s alt : String) : Bool :=
  alt.toList.isPrefixOf (s.toList.map Char.toLower)

/-- True when `s` starts (case-insensitively) with one of the lowercase
alternatives: JS `/^(a|b|...)/i.test(s)`. -/
def anyPrefixCI (alts : List String) (s : String) : Bool :=
  alts.any (fun a => startsWithCI s a)

/-- Digits-to-value accumulator for `parseIntJS`. -/
def digitsVal (ds : List Char) : Nat :=
  ds.foldl (fun n c => n * 10 + (c.toNat - 48)) 0

/-- JS `parseInt(s)` (radix 10): skip leading whitespace, optional sign,
longest digit run; `none` models `NaN`. -/
def parseIntJS (s : String) : Option Int :=
  let cs := s.toList.dropWhile jsSpace
  let signAndRest : Bool × List Char :=
    match cs with
    | '-' :: r => (true, r)
    | '+' :: r => (false, r)
    | _ => (false, cs)
  let ds := signAndRest.2.takeWhile Char.isDigit
  if ds.isEmpty then none
  else some ((if signAndRest.1 then -1 else 1) * (digitsVal ds : Int))

/-- JS `x || dflt` for an optional string (`undefined`, `null` and `""`
are falsy). -/
def jsOrStr (o : Option String) (dflt : String) : String :=
  match o with
  | some s => if s = "" then dflt else s
  | none => dflt

/-- JS `x || null` for a string (empty string becomes SQL NULL). -/
def jsStrOrNull (o : Option String) : Option String :=
  match o with
  | some s => if s = "" then none else some s
  | none => none

/-- JS `parseInt(...) || dflt` (`NaN` and `0` are falsy). -/
def jsOrInt (o : Option Int) (dflt : Int) : Int :=
  match o with
  | some n => if n = 0 then dflt else n
  | none => dflt

/-- JS `x || null` for an optional number (`0` is falsy). -/
def jsIntOrNull (o : Option Int) : Option Int :=
  match o with
  | some n => if n = 0 then none else some n
  | none => none

/-- Full-match test for `/^\d+$/`. -/
def allDigits (s : String) : Bool :=
  !s.toList.isEmpty && s.toList.all Char.isDigit

/-- Full-match test for `/^(\d{1,3}\.\d{1,3}\.\d{1,3}\.\d{1,3})$/`: for
an anchored match the backtracking regex succeeds exactly when the
string is four dot-separated groups of one to three digits. -/
def isIPv4Token (s : String) : Bool :=
  let gs := splitOnChar '.' s
  gs.length == 4 &&
    gs.all (fun g => !g.toList.isEmpty && g.toList.length ≤ 3 && g.toList.all Char.isDigit)

/-- Full-match test for `/^\d{2}:\d{2}:\d{2}$/`. -/
def isHHMMSS (s : String) : Bool :=
  match s.toList with
  | [a, b, c, d, e, f, g, h] =>
      a.isDigit && b.isDigit && c = ':' && d.isDigit && e.isDigit &&
        f = ':' && g.isDigit && h.isDigit
  | _ => false

/-! ## A small backtracking regex engine

The parsers use a handful of JS regexes whose quantifiers all range over
single-character classes.  The engine below implements exactly the JS
(leftmost position, ordered alternation, greedy-with-backtracking
quantifier) semantics for that fragment, with numbered capture groups. -/

inductive Rx where
  | lit : List Char → Rx
  | litCI : List Char → Rx
  | cls : (Char → Bool) → Rx
  | star : (Char → Bool) → Rx
  | plus : (Char → Bool) → Rx
  | rep : (Char → Bool) → Nat → Nat → Rx
  | eos : Rx
  | grp : Nat → Rx → Rx
  | seq : Rx → Rx → Rx
  | alt : Rx → Rx → Rx

abbrev Caps := List (Nat × List Char)

/-- First success of `k` over a list of candidate consumption counts. -/
def firstSomeNat (k : Nat → Option Caps) : List Nat → Option Caps
  | [] => none
  | n :: ns =>
      match k n with
      | some r => some r
      | none => firstSomeNat k ns

/-- The list `hi, hi-1, ..., lo` (empty when `hi < lo`): greedy
quantifiers try the longest consumption first. -/
def countsDown (hi lo : Nat) : List Nat :=
  (List.range (hi + 1 - lo)).map (fun i => hi - i)

/-- Backtracking matcher in continuation style.  `matchRx r cs caps k`
tries to match `r` at the start of `cs` and passes the rest of the input
and the extended capture list to `k`; `none` from `k` makes the matcher
backtrack. -/
def matchRx : Rx → List Char → Caps → (List Char → Caps → Option Caps) → Option Caps
  | .lit p, cs, caps, k =>
      if p.isPrefixOf cs then k (cs.drop p.length) caps else none
  | .litCI p, cs, caps, k =>
      if p.isPrefixOf (cs.map Char.toLower) then k (cs.drop p.length) caps else none
  | .cls p, cs, caps, k =>
      match cs with
      | [] => none
      | c :: rest => if p c then k rest caps else none
  | .star p, cs, caps, k =>
      firstSomeNat (fun i => k (cs.drop i) caps) (countsDown (cs.takeWhile p).length 0)
  | .plus p, cs, caps, k =>
      firstSomeNat (fun i => k (cs.drop i) caps) (countsDown (cs.takeWhile p).length 1)
  | .rep p lo hi, cs, caps, k =>
      firstSomeNat (fun i => k (cs.drop i) caps) (countsDown (min (cs.takeWhile p).length hi) lo)
  | .eos, cs, caps, k =>
      if cs.isEmpty then k cs caps else none
  | .grp i r, cs, caps, k =>
      matchRx r cs caps (fun rest caps2 => k rest ((i, cs.take (cs.length - rest.length)) :: caps2))
  | .seq a b, cs, caps, k =>
      matchRx a cs caps (fun rest caps2 => matchRx b rest caps2 k)
  | .alt a b, cs, caps, k =>
      match matchRx a cs caps k with
      | some r => some r
      | none => matchRx b cs caps k

/-- Anchored match at the start of the input (a `^...` regex). -/
def matchAt (r : Rx) (cs : List Char) : Option Caps :=
  matchRx r cs [] (fun _ caps => some caps)

/-- Unanchored search: try every start position left to right (JS
leftmost-match semantics for `String.prototype.match`). -/
def searchFrom (r : Rx) : List Char → Option Caps
  | [] => matchAt r []
  | c :: rest =>
      match matchAt r (c :: rest) with
      | some caps => some caps
      | none => searchFrom r rest

/-- Content of capture group `i`, as a string (JS `m[i]`). -/
def capture (caps : Caps) (i : Nat) : Option String :=
  (caps.find? (fun x => x.1 = i)).map (fun x => String.mk x.2)

/-- Search and return capture group `i`. -/
def searchCap (r : Rx) (s : String) (i : Nat) : Option String :=
  match searchFrom r s.toList with
  | some caps => capture caps i
  | none => none

/-- Anchored match returning capture group `i`. -/
def matchAtCap (r : Rx) (s : String) (i : Nat) : Option String :=
  match matchAt r s.toList with
  | some caps => capture caps i
  | none => none

/-- Ordered alternation `a|b|...` (first alternative preferred). -/
def rxAlts (r : Rx) (rs : List Rx) : Rx :=
  rs.foldl Rx.alt r

/-- Case-sensitive literal. -/
def litS (s : String) : Rx := Rx.lit s.toList

/-- Case-insensitive literal (argument spelled however; stored lowered). -/
def litCIs (s : String) : Rx := Rx.litCI (s.toList.map Char.toLower)

/-- The regex class `[:\s]`. -/
def colonSpace (c : Char) : Bool := c = ':' || jsSpace c

/-- The regex class `\S`. -/
def nonSpace (c : Char) : Bool := !jsSpace c

/-- The regex class `\d`. -/
def digitC (c : Char) : Bool := c.isDigit

/-- The regex class `[^\d]`. -/
def nonDigitC (c : Char) : Bool := !c.isDigit

/-- The regex `.` applied to newline-free line input. -/
def anyC (_ : Char) : Bool := true

/-- JS falsiness of an optional string (`undefined`, `null`, `""`). -/
def jsFalsyStr (o : Option String) : Bool :=
  match o with
  | none => true
  | some s => s = ""

/-- The regex `(\d{1,3}\.\d{1,3}\.\d{1,3}\.\d{1,3})` used to pull an
IPv4 address out of a line. -/
def ipv4Rx : Rx :=
  .grp 1 (.seq (.rep digitC 1 3) (.seq (litS ".") (.seq (.rep digitC 1 3)
    (.seq (litS ".") (.seq (.rep digitC 1 3) (.seq (litS ".") (.rep digitC 1 3)))))))

/-! ## Parsed record types (src/server/src/types.ts)

`rawData` objects are modelled as association lists of string fields. -/

structure ParsedLLDPNeighbor where
  localInterface : String
  remoteDeviceName : String
  remoteInterface : String
  remoteIP : Option String := none
  remoteDescription : Option String := none
  capabilities : Option (List String) := none
  rawData : List (String × String)
deriving Repr, DecidableEq

structure ParsedOSPFNeighbor where
  neighborId : String
  neighborIP : String
  state : String
  interface : String
  area : String
  priority : Option Int := none
  deadTime : Option String := none
  rawData : List (String × String)
deriving Repr, DecidableEq

structure ParsedInterface where
  name : String
  description : Option String := none
  macAddress : Option String := none
  speedMbps : Option Int := none
  adminStatus : String
  operStatus : String
  ipAddresses : Option (List String) := none
  vlanId : Option Int := none
deriving Repr, DecidableEq

structure ParsedSystemInfo where
  hostname : String
  model : Option String := none
  serialNumber : Option String := none
  osVersion : Option String := none
  uptime : Option String := none
deriving Repr, DecidableEq

structure VendorCommands where
  getLLDPNeighbors : String
  getOSPFNeighbors : String
  getInterfaces : String
  getSystemInfo : String
  testConnection : String
deriving Repr, DecidableEq

/-! ## Huawei parser (src/server/src/parsers/huawei.ts) -/

namespace Huawei

def commands : VendorCommands :=
  { getLLDPNeighbors := "display lldp neighbor brief"
    getOSPFNeighbors := "display ospf peer brief"
    getInterfaces := "display interface brief"
    getSystemInfo := "display version"
    testConnection := "display clock" }

/-- Alternatives of `/^(GE|XGE|ETH|10GE|40GE|100GE|Eth-Trunk|MEth)/i`. -/
def lldpIntfAlts : List String :=
  ["ge", "xge", "eth", "10ge", "40ge", "100ge", "eth-trunk", "meth"]

/-- One iteration of the LLDP loop body (the source's `dataStarted`
flag is written but never read, so the loop is stateless). -/
def lldpLine (line : String) : Option ParsedLLDPNeighbor :=
  let tl := jsTrim line
  if tl = "" || jsStartsWith tl "Local" || jsStartsWith tl "-" then none
  else
    let parts := wsTokens tl
    if 3 ≤ parts.length then
      if anyPrefixCI lldpIntfAlts ((parts.get? 0).getD "") then
        some { localInterface := (parts.get? 0).getD ""
               remoteDeviceName := (parts.get? 1).getD ""
               remoteInterface := if 3 ≤ parts.length then (parts.get? 2).getD "" else ""
               remoteIP := searchCap ipv4Rx tl 1
               rawData := [("originalLine", tl)] }
      else none
    else none

def parseLLDPNeighbors (raw : String) : List ParsedLLDPNeighbor :=
  (splitOnChar '\n' raw).filterMap lldpLine

def ospfLine (line : String) : Option ParsedOSPFNeighbor :=
  let tl := jsTrim line
  if tl = "" || jsStartsWith tl "Area" || jsStartsWith tl "-" ||
      jsStartsWith tl "Router" || jsStartsWith tl "OSPF" then none
  else
    let parts := wsTokens tl
    if 6 ≤ parts.length then
      if isIPv4Token ((parts.get? 0).getD "") then
        let priTok :=
          if 5 ≤ parts.length then
            parts.find? (fun p => allDigits p && decide ((parseIntJS p).getD 0 ≤ 255))
          else none
        some { neighborId := (parts.get? 0).getD ""
               neighborIP := (parts.get? 1).getD ""
               state := (parts.get? 2).getD ""
               interface := parts.getLast?.getD ""
               area := "0"
               priority := priTok.bind parseIntJS
               deadTime := if 5 ≤ parts.length then parts.find? isHHMMSS else none
               rawData := [("originalLine", tl)] }
      else none
    else none

def parseOSPFNeighbors (raw : String) : List ParsedOSPFNeighbor :=
  (splitOnChar '\n' raw).filterMap ospfLine

def intfAlts : List String :=
  ["ge", "xge", "eth", "10ge", "40ge", "100ge", "eth-trunk", "meth", "vlanif", "loopback", "null"]

def intfLine (line : String) : Option ParsedInterface :=
  let tl := jsTrim line
  if tl = "" || jsStartsWith tl "Interface" || jsStartsWith tl "-" ||
      jsStartsWith tl "PHY" || jsStartsWith tl "Brief" then none
  else
    let parts := wsTokens tl
    if 3 ≤ parts.length then
      if anyPrefixCI intfAlts ((parts.get? 0).getD "") then
        let name := (parts.get? 0).getD ""
        let ds := name.toList.takeWhile Char.isDigit
        -- /^(\d+)GE/i, else /^GE/i → 1000, else /^XGE|10GE/i → 10000
        -- (in the last regex the ^ anchors only XGE; 10GE is unanchored)
        let speed : Option Int :=
          if !ds.isEmpty && startsWithCI (String.mk (name.toList.drop ds.length)) "ge" then
            some ((digitsVal ds : Int) * 1000)
          else if startsWithCI name "ge" then some 1000
          else if startsWithCI name "xge" || containsCI name "10ge" then some 10000
          else none
        some { name := name
               adminStatus := if eqCI ((parts.get? 1).getD "") "up" then "up" else "down"
               operStatus := if eqCI ((parts.get? 2).getD "") "up" then "up" else "down"
               speedMbps := speed }
      else none
    else none

def parseInterfaces (raw : String) : List ParsedInterface :=
  (splitOnChar '\n' raw).filterMap intfLine

/-- Regex `(?:sysname|hostname|device name)[:\s]+(\S+)` with `/i`. -/
def hostnameRx : Rx :=
  .seq (rxAlts (litCIs "sysname") [litCIs "hostname", litCIs "device name"])
    (.seq (.plus colonSpace) (.grp 1 (.plus nonSpace)))

def promptChar (c : Char) : Bool :=
  c.isAlpha || c.isDigit || c = '_' || c = '-'

/-- Regex `<([A-Za-z0-9_-]+)>` (case sensitive). -/
def promptRx : Rx :=
  .seq (litS "<") (.seq (.grp 1 (.plus promptChar)) (litS ">"))

/-- Capture alternatives `(S\d+|CE\d+|AR\d+|NE\d+|USG\d+)` under `/i`. -/
def modelCapRx : Rx :=
  rxAlts (.seq (litCIs "s") (.plus digitC))
    [.seq (litCIs "ce") (.plus digitC), .seq (litCIs "ar") (.plus digitC),
     .seq (litCIs "ne") (.plus digitC), .seq (litCIs "usg") (.plus digitC)]

/-- Regex `(?:HUAWEI|model|product)[:\s]*(S\d+|CE\d+|AR\d+|NE\d+|USG\d+)` with `/i`. -/
def modelRx : Rx :=
  .seq (rxAlts (litCIs "huawei") [litCIs "model", litCIs "product"])
    (.seq (.star colonSpace) (.grp 1 modelCapRx))

/-- Regex `(?:serial number|ESN)[:\s]*(\S+)` with `/i`. -/
def serialRx : Rx :=
  .seq (rxAlts (litCIs "serial number") [litCIs "esn"])
    (.seq (.star colonSpace) (.grp 1 (.plus nonSpace)))

/-- Regex `(?:VRP|software|version)[^\d]*(\d+\.\d+[\.\d]*)` with `/i`. -/
def versionRx : Rx :=
  .seq (rxAlts (litCIs "vrp") [litCIs "software", litCIs "version"])
    (.seq (.star nonDigitC)
      (.grp 1 (.seq (.plus digitC) (.seq (litS ".")
        (.seq (.plus digitC) (.star (fun c => c = '.' || c.isDigit)))))))

/-- Regex `uptime[:\s]+(.+)` with `/i`. -/
def uptimeRx : Rx :=
  .seq (litCIs "uptime") (.seq (.plus colonSpace) (.grp 1 (.plus anyC)))

def sysLine (info : ParsedSystemInfo) (line : String) : ParsedSystemInfo :=
  let tl := jsTrim line
  let i1 := match searchCap hostnameRx tl 1 with
            | some h => { info with hostname := h }
            | none => info
  let i2 := match searchCap promptRx tl 1 with
            | some h => if i1.hostname = "Unknown" then { i1 with hostname := h } else i1
            | none => i1
  let i3 := match searchCap modelRx tl 1 with
            | some m => { i2 with model := some m }
            | none => i2
  let i4 := match searchCap serialRx tl 1 with
            | some sn => { i3 with serialNumber := some sn }
            | none => i3
  let i5 := match searchCap versionRx tl 1 with
            | some v => { i4 with osVersion := some ("VRP " ++ v) }
            | none => i4
  match searchCap uptimeRx tl 1 with
  | some u => { i5 with uptime := some (jsTrim u) }
  | none => i5

def parseSystemInfo (raw : String) : ParsedSystemInfo :=
  (splitOnChar '\n' raw).foldl sysLine { hostname := "Unknown" }

end Huawei

/-! ## Cisco parser (src/server/src/parsers/cisco.ts) -/

namespace Cisco

def commands : VendorCommands :=
  { getLLDPNeighbors := "show lldp neighbors"
    getOSPFNeighbors := "show ip ospf neighbor"
    getInterfaces := "show ip interface brief"
    getSystemInfo := "show version"
    testConnection := "show clock" }

/-- Class of `/([B,R,T,S,W,P,D,C,H]+)/` (case sensitive; includes the
comma). -/
def capsChar (c : Char) : Bool :=
  c = 'B' || c = 'R' || c = 'T' || c = 'S' || c = 'W' || c = 'P' ||
    c = 'D' || c = 'C' || c = 'H' || c = ','

def capsRx : Rx := .grp 1 (.plus capsChar)

def lldpLine (line : String) : Option ParsedLLDPNeighbor :=
  let tl := jsTrim line
  if tl = "" || jsStartsWith tl "Capability" || jsStartsWith tl "Device" ||
      jsStartsWith tl "Total" then none
  else
    let parts := wsTokens tl
    if 3 ≤ parts.length then
      if anyPrefixCI ["gi", "fa", "te", "eth", "po"] ((parts.get? 1).getD "") then
        some { localInterface := (parts.get? 1).getD ""
               remoteDeviceName := (parts.get? 0).getD ""
               remoteInterface := parts.getLast?.getD ""
               capabilities := (searchCap capsRx tl 1).map (splitOnChar ',')
               rawData := [("originalLine", tl)] }
      else none
    else none

def parseLLDPNeighbors (raw : String) : List ParsedLLDPNeighbor :=
  (splitOnChar '\n' raw).filterMap lldpLine

def ospfLine (line : String) : Option ParsedOSPFNeighbor :=
  let tl := jsTrim line
  if tl = "" || jsStartsWith tl "Neighbor" || jsStartsWith tl "Process" then none
  else
    let parts := wsTokens tl
    if 6 ≤ parts.length then
      if isIPv4Token ((parts.get? 0).getD "") then
        some { neighborId := (parts.get? 0).getD ""
               neighborIP := (parts.get? 4).getD ""
               state := (parts.get? 2).getD ""
               interface := (parts.get? 5).getD ""
               area := "0"
               priority := some (jsOrInt (parseIntJS ((parts.get? 1).getD "")) 1)
               deadTime := some ((parts.get? 3).getD "")
               rawData := [("originalLine", tl)] }
      else none
    else none

def parseOSPFNeighbors (raw : String) : List ParsedOSPFNeighbor :=
  (splitOnChar '\n' raw).filterMap ospfLine

def intfLine (line : String) : Option ParsedInterface :=
  let tl := jsTrim line
  if tl = "" || jsStartsWith tl "Interface" || jsStartsWith tl "Any interface" then none
  else
    let parts := wsTokens tl
    if 6 ≤ parts.length then
      if anyPrefixCI ["gi", "fa", "te", "eth", "po", "lo", "vl"] ((parts.get? 0).getD "") then
        let name := (parts.get? 0).getD ""
        let speed : Option Int :=
          if startsWithCI name "gi" then some 1000
          else if startsWithCI name "te" then some 10000
          else if startsWithCI name "fa" then some 100
          else none
        some { name := name
               adminStatus :=
                 if eqCI ((parts.get? 4).getD "") "up" ||
                     eqCI ((parts.get? 4).getD "") "administratively" then "up" else "down"
               operStatus := if eqCI ((parts.get? 5).getD "") "up" then "up" else "down"
               ipAddresses :=
                 if isIPv4Token ((parts.get? 1).getD "") then some [(parts.get? 1).getD ""] else none
               speedMbps := speed }
      else none
    else none

def parseInterfaces (raw : String) : List ParsedInterface :=
  (splitOnChar '\n' raw).filterMap intfLine

/-- Regex `^(\S+)\s+uptime` with `/i`. -/
def hostnameRx : Rx :=
  .seq (.grp 1 (.plus nonSpace)) (.seq (.plus jsSpace) (litCIs "uptime"))

/-- Regex `(?:cisco|Cisco)\s+(\S+)` (case sensitive). -/
def modelRx : Rx :=
  .seq (rxAlts (litS "cisco") [litS "Cisco"]) (.seq (.plus jsSpace) (.grp 1 (.plus nonSpace)))

/-- Regex `(?:System serial number|Processor board ID)[:\s]+(\S+)` with `/i`. -/
def serialRx : Rx :=
  .seq (rxAlts (litCIs "system serial number") [litCIs "processor board id"])
    (.seq (.plus colonSpace) (.grp 1 (.plus nonSpace)))

/-- Regex `(?:IOS|Software)[^\d]*Version\s+(\S+)` with `/i`. -/
def versionRx : Rx :=
  .seq (rxAlts (litCIs "ios") [litCIs "software"])
    (.seq (.star nonDigitC) (.seq (litCIs "version")
      (.seq (.plus jsSpace) (.grp 1 (.plus nonSpace)))))

/-- Regex `uptime is\s+(.+)` with `/i`. -/
def uptimeRx : Rx :=
  .seq (litCIs "uptime is") (.seq (.plus jsSpace) (.grp 1 (.plus anyC)))

def sysLine (info : ParsedSystemInfo) (line : String) : ParsedSystemInfo :=
  let tl := jsTrim line
  let i1 := match matchAtCap hostnameRx tl 1 with
            | some h => { info with hostname := h }
            | none => info
  let i2 := match searchCap modelRx tl 1 with
            | some m => if jsFalsyStr i1.model then { i1 with model := some m } else i1
            | none => i1
  let i3 := match searchCap serialRx tl 1 with
            | some sn => { i2 with serialNumber := some sn }
            | none => i2
  let i4 := match searchCap versionRx tl 1 with
            | some v => { i3 with osVersion := some ("IOS " ++ v) }
            | none => i3
  match searchCap uptimeRx tl 1 with
  | some u => { i4 with uptime := some (jsTrim u) }
  | none => i4

def parseSystemInfo (raw : String) : ParsedSystemInfo :=
  (splitOnChar '\n' raw).foldl sysLine { hostname := "Unknown" }

end Cisco

/-! ## Juniper parser (src/server/src/parsers/juniper.ts) -/

namespace Juniper

def commands : VendorCommands :=
  { getLLDPNeighbors := "show lldp neighbors"
    getOSPFNeighbors := "show ospf neighbor"
    getInterfaces := "show interfaces terse"
    getSystemInfo := "show version"
    testConnection := "show system uptime" }

def lldpLine (line : String) : Option ParsedLLDPNeighbor :=
  let tl := jsTrim line
  if tl = "" || jsStartsWith tl "Local" || jsStartsWith tl "LLDP" then none
  else
    let parts := wsTokens tl
    if 4 ≤ parts.length then
      if anyPrefixCI ["ge-", "xe-", "et-", "ae"] ((parts.get? 0).getD "") then
        some { localInterface := (parts.get? 0).getD ""
               remoteDeviceName := parts.getLast?.getD ""
               remoteInterface := jsOrStr (parts.get? 3) ""
               rawData := [("originalLine", tl), ("chassisId", jsOrStr (parts.get? 2) "")] }
      else none
    else none

def parseLLDPNeighbors (raw : String) : List ParsedLLDPNeighbor :=
  (splitOnChar '\n' raw).filterMap lldpLine

def ospfLine (line : String) : Option ParsedOSPFNeighbor :=
  let tl := jsTrim line
  if tl = "" || jsStartsWith tl "Address" || jsStartsWith tl "OSPF" then none
  else
    let parts := wsTokens tl
    if 6 ≤ parts.length then
      if isIPv4Token ((parts.get? 0).getD "") then
        some { neighborId := (parts.get? 3).getD ""
               neighborIP := (parts.get? 0).getD ""
               state := (parts.get? 2).getD ""
               interface := (parts.get? 1).getD ""
               area := "0"
               priority := some (jsOrInt (parseIntJS ((parts.get? 4).getD "")) 128)
               deadTime := some (((parts.get? 5).getD "") ++ "s")
               rawData := [("originalLine", tl)] }
      else none
    else none

def parseOSPFNeighbors (raw : String) : List ParsedOSPFNeighbor :=
  (splitOnChar '\n' raw).filterMap ospfLine

def intfLine (line : String) : Option ParsedInterface :=
  let tl := jsTrim line
  if tl = "" || jsStartsWith tl "Interface" then none
  else
    let parts := wsTokens tl
    if 3 ≤ parts.length then
      if anyPrefixCI ["ge-", "xe-", "et-", "ae", "lo", "vlan", "irb"] ((parts.get? 0).getD "") then
        let name := (parts.get? 0).getD ""
        let speed : Option Int :=
          if startsWithCI name "ge-" then some 1000
          else if startsWithCI name "xe-" then some 10000
          else if startsWithCI name "et-" then some 100000
          else none
        some { name := name
               adminStatus := if eqCI ((parts.get? 1).getD "") "up" then "up" else "down"
               operStatus := if eqCI ((parts.get? 2).getD "") "up" then "up" else "down"
               speedMbps := speed }
      else none
    else none

def parseInterfaces (raw : String) : List ParsedInterface :=
  (splitOnChar '\n' raw).filterMap intfLine

/-- Regex `^Hostname:\s+(\S+)` with `/i`. -/
def hostnameRx : Rx :=
  .seq (litCIs "hostname:") (.seq (.plus jsSpace) (.grp 1 (.plus nonSpace)))

/-- Regex `^Model:\s+(\S+)` with `/i`. -/
def modelRx : Rx :=
  .seq (litCIs "model:") (.seq (.plus jsSpace) (.grp 1 (.plus nonSpace)))

/-- Regex `(?:serial number|Chassis)[:\s]+(\S+)` with `/i`. -/
def serialRx : Rx :=
  .seq (rxAlts (litCIs "serial number") [litCIs "chassis"])
    (.seq (.plus colonSpace) (.grp 1 (.plus nonSpace)))

/-- Regex `^Junos:\s+(\S+)` with `/i`. -/
def versionRx : Rx :=
  .seq (litCIs "junos:") (.seq (.plus jsSpace) (.grp 1 (.plus nonSpace)))

/-- Regex `JUNOS[^\[]*\[(\S+)\]` with `/i`. -/
def altVersionRx : Rx :=
  .seq (litCIs "junos") (.seq (.star (fun c => c ≠ '['))
    (.seq (litS "[") (.seq (.grp 1 (.plus nonSpace)) (litS "]"))))

def sysLine (info : ParsedSystemInfo) (line : String) : ParsedSystemInfo :=
  let tl := jsTrim line
  let i1 := match matchAtCap hostnameRx tl 1 with
            | some h => { info with hostname := h }
            | none => info
  let i2 := match matchAtCap modelRx tl 1 with
            | some m => { i1 with model := some m }
            | none => i1
  let i3 := match searchCap serialRx tl 1 with
            | some sn => { i2 with serialNumber := some sn }
            | none => i2
  let i4 := match matchAtCap versionRx tl 1 with
            | some v => { i3 with osVersion := some ("JUNOS " ++ v) }
            | none => i3
  match searchCap altVersionRx tl 1 with
  | some v => if jsFalsyStr i4.osVersion then { i4 with osVersion := some ("JUNOS " ++ v) } else i4
  | none => i4

def parseSystemInfo (raw : String) : ParsedSystemInfo :=
  (splitOnChar '\n' raw).foldl sysLine { hostname := "Unknown" }

end Juniper

/-! ## MikroTik parser (src/server/src/parsers/mikrotik.ts) -/

namespace Mikrotik

def commands : VendorCommands :=
  { getLLDPNeighbors := "/ip neighbor print"
    getOSPFNeighbors := "/routing ospf neighbor print"
    getInterfaces := "/interface print"
    getSystemInfo := "/system resource print"
    testConnection := "/system clock print" }

def lldpLine (line : String) : Option ParsedLLDPNeighbor :=
  let tl := jsTrim line
  if tl = "" || jsStartsWith tl "Flags" || jsStartsWith tl "#" then none
  else
    let parts := wsTokens tl
    if 3 ≤ parts.length then
      let startIdx := if allDigits ((parts.get? 0).getD "") then 1 else 0
      let tok := (parts.get? startIdx).getD ""
      if tok ≠ "" && anyPrefixCI ["ether", "sfp", "wlan", "bridge"] tok then
        some { localInterface := tok
               remoteDeviceName := jsOrStr (parts.get? (startIdx + 2)) "Unknown"
               remoteInterface := ""
               remoteIP := parts.get? (startIdx + 1)
               rawData := [("originalLine", tl)] }
      else none
    else none

def parseLLDPNeighbors (raw : String) : List ParsedLLDPNeighbor :=
  (splitOnChar '\n' raw).filterMap lldpLine

def ospfLine (line : String) : Option ParsedOSPFNeighbor :=
  let tl := jsTrim line
  if tl = "" || jsStartsWith tl "Flags" || jsStartsWith tl "#" then none
  else
    let parts := wsTokens tl
    if 5 ≤ parts.length then
      let startIdx := if allDigits ((parts.get? 0).getD "") then 1 else 0
      if isIPv4Token ((parts.get? (startIdx + 1)).getD "") then
        some { neighborId := (parts.get? (startIdx + 1)).getD ""
               neighborIP := (parts.get? (startIdx + 2)).getD ""
               state := jsOrStr (parts.get? (startIdx + 4)) "Unknown"
               interface := jsOrStr (parts.get? startIdx) ""
               area := "0"
               priority := some (jsOrInt (parseIntJS ((parts.get? (startIdx + 3)).getD "")) 1)
               rawData := [("originalLine", tl)] }
      else none
    else none

def parseOSPFNeighbors (raw : String) : List ParsedOSPFNeighbor :=
  (splitOnChar '\n' raw).filterMap ospfLine

/-- Class of `/^[RDSX,]+$/`. -/
def flagChar (c : Char) : Bool :=
  c = 'R' || c = 'D' || c = 'S' || c = 'X' || c = ','

def isFlagsTok (s : String) : Bool :=
  !s.toList.isEmpty && s.toList.all flagChar

def intfLine (line : String) : Option ParsedInterface :=
  let tl := jsTrim line
  if tl = "" || jsStartsWith tl "Flags" || jsStartsWith tl "#" then none
  else
    let parts := wsTokens tl
    if 2 ≤ parts.length then
      let startIdx := if allDigits ((parts.get? 0).getD "") then 1 else 0
      let hasFlags := isFlagsTok ((parts.get? startIdx).getD "")
      let flags := if hasFlags then (parts.get? startIdx).getD "" else ""
      let nameIdx := if hasFlags then startIdx + 1 else startIdx
      match parts.get? nameIdx with
      | none => none
      | some name =>
          if name ≠ "" && anyPrefixCI ["ether", "sfp", "wlan", "bridge", "vlan", "lo"] name then
            let ty := jsOrStr (parts.get? (nameIdx + 1)) ""
            let speed : Option Int :=
              if ty ≠ "" then
                if containsCI ty "ether" then some 1000
                else if containsCI ty "sfp" || containsCI name "10g" then some 10000
                else none
              else none
            some { name := name
                   adminStatus := if flags.toList.contains 'D' then "down" else "up"
                   operStatus := if flags.toList.contains 'R' then "up" else "down"
                   speedMbps := speed }
          else none
    else none

def parseInterfaces (raw : String) : List ParsedInterface :=
  (splitOnChar '\n' raw).filterMap intfLine

/-- Regex `board-name:\s*(\S+)` with `/i`. -/
def boardRx : Rx :=
  .seq (litCIs "board-name:") (.seq (.star jsSpace) (.grp 1 (.plus nonSpace)))

/-- Regex `platform:\s*(\S+)` with `/i`. -/
def platformRx : Rx :=
  .seq (litCIs "platform:") (.seq (.star jsSpace) (.grp 1 (.plus nonSpace)))

/-- Regex `version:\s*(\S+)` with `/i`. -/
def versionRx : Rx :=
  .seq (litCIs "version:") (.seq (.star jsSpace) (.grp 1 (.plus nonSpace)))

/-- Regex `uptime:\s*(.+)` with `/i`. -/
def uptimeRx : Rx :=
  .seq (litCIs "uptime:") (.seq (.star jsSpace) (.grp 1 (.plus anyC)))

/-- Regex `serial-number:\s*(\S+)` with `/i`. -/
def serialRx : Rx :=
  .seq (litCIs "serial-number:") (.seq (.star jsSpace) (.grp 1 (.plus nonSpace)))

def sysLine (info : ParsedSystemInfo) (line : String) : ParsedSystemInfo :=
  let tl := jsTrim line
  let i1 := match searchCap boardRx tl 1 with
            | some m => { info with model := some m }
            | none => info
  let i2 := match searchCap platformRx tl 1 with
            | some m => if jsFalsyStr i1.model then { i1 with model := some m } else i1
            | none => i1
  let i3 := match searchCap versionRx tl 1 with
            | some v => { i2 with osVersion := some ("RouterOS " ++ v) }
            | none => i2
  let i4 := match searchCap uptimeRx tl 1 with
            | some u => { i3 with uptime := some (jsTrim u) }
            | none => i3
  match searchCap serialRx tl 1 with
  | some sn => { i4 with serialNumber := some sn }
  | none => i4

def parseSystemInfo (raw : String) : ParsedSystemInfo :=
  (splitOnChar '\n' raw).foldl sysLine { hostname := "MikroTik" }

end Mikrotik

/-! ## Datacom parser (src/server/src/parsers/datacom.ts) -/

namespace Datacom

def commands : VendorCommands :=
  { getLLDPNeighbors := "show lldp neighbors"
    getOSPFNeighbors := "show ip ospf neighbor"
    getInterfaces := "show interface status"
    getSystemInfo := "show version"
    testConnection := "show clock" }

def lldpLine (line : String) : Option ParsedLLDPNeighbor :=
  let tl := jsTrim line
  if tl = "" || jsStartsWith tl "Local" || jsStartsWith tl "Device" ||
      jsStartsWith tl "-" then none
  else
    let parts := wsTokens tl
    if 3 ≤ parts.length then
      if anyPrefixCI ["gi", "te", "ge", "eth", "po"] ((parts.get? 0).getD "") then
        some { localInterface := (parts.get? 0).getD ""
               remoteDeviceName := parts.getLast?.getD ""
               remoteInterface :=
                 if 4 ≤ parts.length then (parts.get? (parts.length - 2)).getD "" else ""
               rawData := [("originalLine", tl)] }
      else none
    else none

def parseLLDPNeighbors (raw : String) : List ParsedLLDPNeighbor :=
  (splitOnChar '\n' raw).filterMap lldpLine

def ospfLine (line : String) : Option ParsedOSPFNeighbor :=
  let tl := jsTrim line
  if tl = "" || jsStartsWith tl "Neighbor" || jsStartsWith tl "-" then none
  else
    let parts := wsTokens tl
    if 6 ≤ parts.length then
      if isIPv4Token ((parts.get? 0).getD "") then
        some { neighborId := (parts.get? 0).getD ""
               neighborIP := (parts.get? 4).getD ""
               state := (parts.get? 2).getD ""
               interface := (parts.get? 5).getD ""
               area := "0"
               priority := some (jsOrInt (parseIntJS ((parts.get? 1).getD "")) 1)
               deadTime := some ((parts.get? 3).getD "")
               rawData := [("originalLine", tl)] }
      else none
    else none

def parseOSPFNeighbors (raw : String) : List ParsedOSPFNeighbor :=
  (splitOnChar '\n' raw).filterMap ospfLine

/-- Anchored regex `^(\d+)(G|M|T)$` with `/i`. -/
def speedRx : Rx :=
  .seq (.grp 1 (.plus digitC))
    (.seq (.grp 2 (rxAlts (litCIs "g") [litCIs "m", litCIs "t"])) .eos)

def isSpeedTok (p : String) : Bool :=
  (matchAt speedRx p.toList).isSome

def intfLine (line : String) : Option ParsedInterface :=
  let tl := jsTrim line
  if tl = "" || jsStartsWith tl "Port" || jsStartsWith tl "-" ||
      jsStartsWith tl "Interface" then none
  else
    let parts := wsTokens tl
    if 3 ≤ parts.length then
      if anyPrefixCI ["gi", "te", "ge", "eth", "po"] ((parts.get? 0).getD "") then
        let name := (parts.get? 0).getD ""
        let status := (parts.get? 2).getD ""
        let speed : Option Int :=
          match parts.find? isSpeedTok with
          | some sp =>
              match matchAt speedRx sp.toList with
              | some caps =>
                  let num := (capture caps 1).bind parseIntJS
                  let unit := (capture caps 2).getD ""
                  if eqCI unit "g" then num.map (fun n => n * 1000)
                  else if eqCI unit "m" then num
                  else if eqCI unit "t" then num.map (fun n => n * 1000000)
                  else none
              | none => none
          | none =>
              if startsWithCI name "gi" then some 1000
              else if startsWithCI name "te" then some 10000
              else none
        let vlanTok := parts.find? (fun p => allDigits p && decide ((parseIntJS p).getD 0 ≤ 4096))
        some { name := name
               adminStatus := if containsCI status "up" then "up" else "down"
               operStatus := if containsCI status "connected" || eqCI status "up" then "up" else "down"
               speedMbps := speed
               vlanId := vlanTok.bind parseIntJS }
      else none
    else none

def parseInterfaces (raw : String) : List ParsedInterface :=
  (splitOnChar '\n' raw).filterMap intfLine

/-- Regex `(?:hostname|System Name)[:\s]+(\S+)` with `/i`. -/
def hostnameRx : Rx :=
  .seq (rxAlts (litCIs "hostname") [litCIs "system name"])
    (.seq (.plus colonSpace) (.grp 1 (.plus nonSpace)))

/-- Regex `(?:Model|Product Name)[:\s]+(\S+)` with `/i`. -/
def modelRx : Rx :=
  .seq (rxAlts (litCIs "model") [litCIs "product name"])
    (.seq (.plus colonSpace) (.grp 1 (.plus nonSpace)))

/-- Regex `(?:Serial Number|S\/N)[:\s]+(\S+)` with `/i`. -/
def serialRx : Rx :=
  .seq (rxAlts (litCIs "serial number") [litCIs "s/n"])
    (.seq (.plus colonSpace) (.grp 1 (.plus nonSpace)))

/-- Regex `(?:Software Version|Version)[:\s]+(\S+)` with `/i`. -/
def versionRx : Rx :=
  .seq (rxAlts (litCIs "software version") [litCIs "version"])
    (.seq (.plus colonSpace) (.grp 1 (.plus nonSpace)))

/-- Regex `(?:Uptime|Up Time)[:\s]+(.+)` with `/i`. -/
def uptimeRx : Rx :=
  .seq (rxAlts (litCIs "uptime") [litCIs "up time"])
    (.seq (.plus colonSpace) (.grp 1 (.plus anyC)))

def sysLine (info : ParsedSystemInfo) (line : String) : ParsedSystemInfo :=
  let tl := jsTrim line
  let i1 := match searchCap hostnameRx tl 1 with
            | some h => { info with hostname := h }
            | none => info
  let i2 := match searchCap modelRx tl 1 with
            | some m => { i1 with model := some m }
            | none => i1
  let i3 := match searchCap serialRx tl 1 with
            | some sn => { i2 with serialNumber := some sn }
            | none => i2
  let i4 := match searchCap versionRx tl 1 with
            | some v => { i3 with osVersion := some v }
            | none => i3
  match searchCap uptimeRx tl 1 with
  | some u => { i4 with uptime := some (jsTrim u) }
  | none => i4

def parseSystemInfo (raw : String) : ParsedSystemInfo :=
  (splitOnChar '\n' raw).foldl sysLine { hostname := "Unknown" }

end Datacom

/-! ## Vendor registry (src/server/src/parsers/index.ts) -/

inductive VendorType where
  | huawei | juniper | mikrotik | datacom | cisco | other
deriving Repr, DecidableEq

/-- The `VendorParser` capability record of the source (renamed to avoid
a tooling keyword). -/
structure VendorParserSet where
  commands : VendorCommands
  parseLLDPNeighbors : String → List ParsedLLDPNeighbor
  parseOSPFNeighbors : String → List ParsedOSPFNeighbor
  parseInterfaces : String → List ParsedInterface
  parseSystemInfo : String → ParsedSystemInfo

def huaweiSet : VendorParserSet :=
  { commands := Huawei.commands
    parseLLDPNeighbors := Huawei.parseLLDPNeighbors
    parseOSPFNeighbors := Huawei.parseOSPFNeighbors
    parseInterfaces := Huawei.parseInterfaces
    parseSystemInfo := Huawei.parseSystemInfo }

def ciscoSet : VendorParserSet :=
  { commands := Cisco.commands
    parseLLDPNeighbors := Cisco.parseLLDPNeighbors
    parseOSPFNeighbors := Cisco.parseOSPFNeighbors
    parseInterfaces := Cisco.parseInterfaces
    parseSystemInfo := Cisco.parseSystemInfo }

def juniperSet : VendorParserSet :=
  { commands := Juniper.commands
    parseLLDPNeighbors := Juniper.parseLLDPNeighbors
    parseOSPFNeighbors := Juniper.parseOSPFNeighbors
    parseInterfaces := Juniper.parseInterfaces
    parseSystemInfo := Juniper.parseSystemInfo }

def mikrotikSet : VendorParserSet :=
  { commands := Mikrotik.commands
    parseLLDPNeighbors := Mikrotik.parseLLDPNeighbors
    parseOSPFNeighbors := Mikrotik.parseOSPFNeighbors
    parseInterfaces := Mikrotik.parseInterfaces
    parseSystemInfo := Mikrotik.parseSystemInfo }

def datacomSet : VendorParserSet :=
  { commands := Datacom.commands
    parseLLDPNeighbors := Datacom.parseLLDPNeighbors
    parseOSPFNeighbors := Datacom.parseOSPFNeighbors
    parseInterfaces := Datacom.parseInterfaces
    parseSystemInfo := Datacom.parseSystemInfo }

/-- Source `getVendorParser` (the `|| vendorParsers.huawei` fallback is
dead code for the closed vendor enumeration; `other` maps to the Huawei
variant in the registry itself). -/
def getVendorParserSet : VendorType → VendorParserSet
  | .huawei => huaweiSet
  | .cisco => ciscoSet
  | .juniper => juniperSet
  | .mikrotik => mikrotikSet
  | .datacom => datacomSet
  | .other => huaweiSet

/-! ## Relational rows (src/server/src/types.ts, supabase schema)

Uuid columns are `Nat` drawn from an explicit fresh counter; timestamp
columns are `Nat` ticks; jsonb columns are association lists.  Columns
the modelled routes never read or write (credentials, location,
metadata of devices, `parsed_data` of history rows) are omitted. -/

structure NetworkDevice where
  id : Nat
  name : String
  hostname : String
  ip_address : String
  vendor : VendorType
  model : Option String := none
  serial_number : Option String := none
  os_version : Option String := none
  status : String := "unknown"
  last_seen : Option Nat := none
deriving Repr, DecidableEq

structure TopologyNeighbor where
  id : Nat
  local_device_id : Nat
  local_interface : String
  remote_device_id : Option Nat := none
  remote_device_name : String
  remote_interface : String
  remote_ip : Option String := none
  discovery_protocol : String
  raw_data : List (String × String)
  discovered_at : Nat
  last_updated : Nat
deriving Repr, DecidableEq

structure TopologyLink where
  id : Nat
  source_device_id : Nat
  source_interface : Option String := none
  target_device_id : Nat
  target_interface : Option String := none
  link_type : String
  bandwidth_mbps : Option Int := none
  status : String
  metadata : List (String × String) := []
  created_at : Nat
  updated_at : Nat
deriving Repr, DecidableEq

structure DeviceInterface where
  id : Nat
  device_id : Nat
  name : String
  description : Option String := none
  mac_address : Option String := none
  speed_mbps : Option Int := none
  admin_status : String
  oper_status : String
  vlan_id : Option Int := none
  created_at : Nat
  updated_at : Nat
deriving Repr, DecidableEq

structure CollectionHistory where
  id : Nat
  device_id : Nat
  collection_type : String
  status : String
  started_at : Nat
  completed_at : Option Nat := none
  error_message : Option String := none
  raw_output : Option String := none
deriving Repr, DecidableEq

/-- The relational store touched by the collection and topology routes. -/
structure DBState where
  devices : List NetworkDevice
  neighbors : List TopologyNeighbor
  links : List TopologyLink
  interfaces : List DeviceInterface
  history : List CollectionHistory
deriving Repr, DecidableEq

/-! ## Neighbor upsert (collection.ts, INSERT ... ON CONFLICT) -/

/-- Conflict key `(local_device_id, local_interface, discovery_protocol)`. -/
def neighborKeyMatches (nr x : TopologyNeighbor) : Bool :=
  x.local_device_id == nr.local_device_id && x.local_interface == nr.local_interface &&
    x.discovery_protocol == nr.discovery_protocol

/-- The `DO UPDATE SET` of the neighbor upsert: exactly
`remote_device_name`, `remote_interface`, `remote_ip`, `raw_data` and
`last_updated` are overwritten. -/
def updNeighborFields (x nr : TopologyNeighbor) : TopologyNeighbor :=
  { x with remote_device_name := nr.remote_device_name
           remote_interface := nr.remote_interface
           remote_ip := nr.remote_ip
           raw_data := nr.raw_data
           last_updated := nr.last_updated }

/-- `INSERT ... ON CONFLICT (local_device_id, local_interface,
discovery_protocol) DO UPDATE SET ...` over the neighbor table (the
unique constraint guarantees at most one conflicting row). -/
def upsertNeighbor (rows : List TopologyNeighbor) (nr : TopologyNeighbor) :
    List TopologyNeighbor :=
  if rows.any (neighborKeyMatches nr) then
    rows.map (fun x => if neighborKeyMatches nr x then updNeighborFields x nr else x)
  else rows ++ [nr]

/-! ## Interface upsert (collection.ts, device_interfaces) -/

def intfKeyMatches (nr x : DeviceInterface) : Bool :=
  x.device_id == nr.device_id && x.name == nr.name

/-- The `DO UPDATE SET` of the interface upsert (`mac_address` and
`created_at` are not overwritten). -/
def updIntfFields (x nr : DeviceInterface) : DeviceInterface :=
  { x with description := nr.description
           speed_mbps := nr.speed_mbps
           admin_status := nr.admin_status
           oper_status := nr.oper_status
           vlan_id := nr.vlan_id
           updated_at := nr.updated_at }

def upsertInterface (rows : List DeviceInterface) (nr : DeviceInterface) :
    List DeviceInterface :=
  if rows.any (intfKeyMatches nr) then
    rows.map (fun x => if intfKeyMatches nr x then updIntfFields x nr else x)
  else rows ++ [nr]

/-! ## Remote-device resolution (collection.ts lines 138-160) -/

/-- Resolution of a discovered neighbor against the device registry.
The name lookup is ONE query whose WHERE clause is a four-way OR of
exact and substring conditions (`LOWER(hostname) = LOWER($1) OR
LOWER(name) = LOWER($1) OR LOWER(hostname) LIKE LOWER($2) OR
LOWER(name) LIKE LOWER($2)` with `$2 = '%' || $1 || '%'`); `queryOne`
returns the first matching row in table order.  Only if that query
matches nothing and a remote IP was reported does the IP lookup run. -/
def resolveRemoteDevice (devices : List NetworkDevice) (remoteName : String)
    (remoteIP : Option String) : Option Nat :=
  let byName : Option Nat :=
    if remoteName ≠ "" then
      let searchName := ((splitOnChar '.' remoteName).get? 0).getD ""
      (devices.find? (fun d =>
        eqCI d.hostname searchName || eqCI d.name searchName ||
          containsCI d.hostname searchName || containsCI d.name searchName)).map
        (fun d => d.id)
    else none
  match byName with
  | some i => some i
  | none =>
      match remoteIP with
      | some ipStr =>
          if ipStr ≠ "" then
            (devices.find? (fun d => d.ip_address == ipStr)).map (fun d => d.id)
          else none
      | none => none

/-! ## Link dedup / create / update (collection.ts lines 163-212) -/

/-- WHERE clause of the bidirectional existence check. -/
def linkEitherDir (a b : Nat) (l : TopologyLink) : Bool :=
  (l.source_device_id == a && l.target_device_id == b) ||
    (l.source_device_id == b && l.target_device_id == a)

/-- `queryOne` of the bidirectional check (first matching row). -/
def findLinkEither (links : List TopologyLink) (a b : Nat) : Option TopologyLink :=
  links.find? (linkEitherDir a b)

/-- `query(...).length === 0` variant used by the auto-link sweep. -/
def hasLinkEither (links : List TopologyLink) (a b : Nat) : Bool :=
  links.any (linkEitherDir a b)

/-- SQL COALESCE on nullable strings. -/
def coalesceStr (a b : Option String) : Option String :=
  match a with
  | some s => some s
  | none => b

/-- The UPDATE branch: refresh interfaces and status of the existing
row (the bound parameters are plain strings, hence never NULL, so the
COALESCEs always take the new values). -/
def refreshLink (localIntf remoteIntf : String) (t : Nat) (k : TopologyLink) : TopologyLink :=
  { k with source_interface := coalesceStr (some localIntf) k.source_interface
           target_interface := coalesceStr (some remoteIntf) k.target_interface
           status := "up"
           updated_at := t }

/-- Link row inserted by the per-device collection route. -/
def mkDiscoveredLink (fid deviceId : Nat) (localIntf : String) (remoteDeviceId : Nat)
    (remoteIntf remoteName : String) (t : Nat) : TopologyLink :=
  { id := fid
    source_device_id := deviceId
    source_interface := some localIntf
    target_device_id := remoteDeviceId
    target_interface := jsStrOrNull (some remoteIntf)
    link_type := "discovered"
    status := "up"
    metadata := [("auto_created", "true"), ("discovery_protocol", "lldp"),
                 ("remote_device_name", remoteName)]
    created_at := t
    updated_at := t }

/-- Bidirectional-check-then-insert-or-update of the per-device route. -/
def linkUpsert (links : List TopologyLink) (deviceId : Nat) (localIntf : String)
    (remoteDeviceId : Nat) (remoteIntf remoteName : String) (fid t : Nat) :
    List TopologyLink :=
  match findLinkEither links deviceId remoteDeviceId with
  | none =>
      links ++ [mkDiscoveredLink fid deviceId localIntf remoteDeviceId remoteIntf remoteName t]
  | some l =>
      links.map (fun k => if k.id == l.id then refreshLink localIntf remoteIntf t k else k)

/-! ## LLDP / OSPF / interface persistence (collection.ts lines 109-285) -/

/-- Neighbor row built from a parsed LLDP record
(`remote_ip: neighbor.remoteIP || null`). -/
def mkLLDPRow (deviceId : Nat) (nb : ParsedLLDPNeighbor) (fid t : Nat) : TopologyNeighbor :=
  { id := fid
    local_device_id := deviceId
    local_interface := nb.localInterface
    remote_device_name := nb.remoteDeviceName
    remote_interface := nb.remoteInterface
    remote_ip := jsStrOrNull nb.remoteIP
    discovery_protocol := "lldp"
    raw_data := nb.rawData
    discovered_at := t
    last_updated := t }

/-- One iteration of the LLDP persistence loop: upsert the neighbor
row, resolve the remote device, then create-or-refresh the link and
write `remote_device_id` back onto the lldp row of that port. -/
def processLLDPNeighbor (st : DBState) (deviceId : Nat) (nb : ParsedLLDPNeighbor)
    (fid t : Nat) : DBState :=
  let st1 := { st with neighbors := upsertNeighbor st.neighbors (mkLLDPRow deviceId nb fid t) }
  match resolveRemoteDevice st1.devices nb.remoteDeviceName nb.remoteIP with
  | none => st1
  | some rid =>
      let links2 := linkUpsert st1.links deviceId nb.localInterface rid
        nb.remoteInterface nb.remoteDeviceName (fid + 1) t
      let neighbors2 := st1.neighbors.map (fun r =>
        if r.local_device_id == deviceId && r.local_interface == nb.localInterface &&
            r.discovery_protocol == "lldp" then
          { r with remote_device_id := some rid }
        else r)
      { st1 with links := links2, neighbors := neighbors2 }

def persistLLDPList (st : DBState) (deviceId : Nat) (ns : List ParsedLLDPNeighbor)
    (fid t : Nat) : DBState × Nat :=
  ns.foldl (fun acc nb => (processLLDPNeighbor acc.1 deviceId nb acc.2 t, acc.2 + 2)) (st, fid)

/-- Neighbor row built from a parsed OSPF record: empty
`remote_interface`, `remote_ip` from the reported address, protocol
`ospf`, and no `remote_device_id` column in the INSERT at all. -/
def mkOSPFRow (deviceId : Nat) (nb : ParsedOSPFNeighbor) (fid t : Nat) : TopologyNeighbor :=
  { id := fid
    local_device_id := deviceId
    local_interface := nb.interface
    remote_device_name := nb.neighborId
    remote_interface := ""
    remote_ip := some nb.neighborIP
    discovery_protocol := "ospf"
    raw_data := nb.rawData
    discovered_at := t
    last_updated := t }

def persistOSPFList (st : DBState) (deviceId : Nat) (ns : List ParsedOSPFNeighbor)
    (fid t : Nat) : DBState × Nat :=
  ns.foldl
    (fun acc nb =>
      ({ acc.1 with neighbors := upsertNeighbor acc.1.neighbors (mkOSPFRow deviceId nb acc.2 t) },
        acc.2 + 1))
    (st, fid)

def mkIntfRow (deviceId : Nat) (i : ParsedInterface) (fid t : Nat) : DeviceInterface :=
  { id := fid
    device_id := deviceId
    name := i.name
    description := jsStrOrNull i.description
    mac_address := jsStrOrNull i.macAddress
    speed_mbps := jsIntOrNull i.speedMbps
    admin_status := i.adminStatus
    oper_status := i.operStatus
    vlan_id := jsIntOrNull i.vlanId
    created_at := t
    updated_at := t }

def persistIntfList (st : DBState) (deviceId : Nat) (ifs : List ParsedInterface)
    (fid t : Nat) : DBState × Nat :=
  ifs.foldl
    (fun acc i =>
      ({ acc.1 with interfaces := upsertInterface acc.1.interfaces (mkIntfRow deviceId i acc.2 t) },
        acc.2 + 1))
    (st, fid)

/-- Device update after a successful collection: COALESCE system-info
fields, status `online`, refresh `last_seen` (lines 287-314). -/
def updateDeviceSysInfo (st : DBState) (deviceId : Nat) (si : Option ParsedSystemInfo)
    (t : Nat) : DBState :=
  match si with
  | some info =>
      { st with devices := st.devices.map (fun d =>
          if d.id == deviceId then
            { d with model := coalesceStr info.model d.model
                     serial_number := coalesceStr info.serialNumber d.serial_number
                     os_version := coalesceStr info.osVersion d.os_version
                     status := "online"
                     last_seen := some t }
          else d) }
  | none =>
      { st with devices := st.devices.map (fun d =>
          if d.id == deviceId then { d with status := "online", last_seen := some t } else d) }

/-! ## Collection history bookkeeping -/

def mkRunningHistory (hid deviceId : Nat) (types : List String) (t : Nat) : CollectionHistory :=
  { id := hid
    device_id := deviceId
    collection_type := String.intercalate "," types
    status := "running"
    started_at := t }

def historyFail (st : DBState) (hid : Nat) (msg : String) (t : Nat) : DBState :=
  { st with history := st.history.map (fun h =>
      if h.id == hid then
        { h with status := "failed", completed_at := some t, error_message := some msg }
      else h) }

def historyComplete (st : DBState) (hid : Nat) (raw : String) (t : Nat) : DBState :=
  { st with history := st.history.map (fun h =>
      if h.id == hid then
        { h with status := "completed", completed_at := some t, raw_output := some raw }
      else h) }

/-! ## The per-device collection route (collection.ts router.post /:deviceId) -/

structure CollectionResult where
  success : Bool
  deviceId : Nat
  lldpNeighbors : Option (List ParsedLLDPNeighbor) := none
  ospfNeighbors : Option (List ParsedOSPFNeighbor) := none
  interfaces : Option (List ParsedInterface) := none
  systemInfo : Option ParsedSystemInfo := none
  error : Option String := none
  rawOutput : Option String := none
  collectedAt : Nat
deriving Repr, DecidableEq

structure SSHCommandResult where
  success : Bool
  output : String
deriving Repr, DecidableEq

/-- Observable behaviour of the SSH session for one request:
`ssh.connect` either rejects (auth failure / timeout / unreachable) or
resolves, and in the latter case `ssh.executeCommand` always resolves,
giving one `SSHCommandResult` per logical operation. -/
inductive SSHBehavior where
  | connectFail (msg : String)
  | connectOk (lldp ospf intf sys : SSHCommandResult)
deriving Repr, DecidableEq

structure CollectOutcome where
  state : DBState
  result : CollectionResult
  sshConnected : Bool
  httpStatus : Nat
deriving Repr, DecidableEq

/-- The per-device collection request.  `historyId` is the uuid drawn
for the history row, `fid` seeds the remaining uuid draws, `t` is the
request's clock tick (each `new Date()` call in the route happens-after
the previous one; a single tick keeps the model deterministic).
Persisting a `some []` parse equals skipping it, so the source's
`length > 0` guards are dropped as identities. -/
def collectDevice (st : DBState) (deviceId : Nat) (types : List String) (beh : SSHBehavior)
    (historyId fid t : Nat) : CollectOutcome :=
  match st.devices.find? (fun d => d.id == deviceId) with
  | none =>
      { state := st
        result := { success := false, deviceId := deviceId,
                    error := some "Device not found", collectedAt := t }
        sshConnected := false
        httpStatus := 404 }
  | some device =>
      let st1 := { st with history := st.history ++ [mkRunningHistory historyId deviceId types t] }
      let pset := getVendorParserSet device.vendor
      match beh with
      | .connectFail msg =>
          let st2 := historyFail st1 historyId msg t
          let st3 := { st2 with devices := st2.devices.map (fun d =>
            if d.id == deviceId then { d with status := "error" } else d) }
          { state := st3
            result := { success := false, deviceId := deviceId, error := some msg, collectedAt := t }
            sshConnected := false
            httpStatus := 500 }
      | .connectOk lldpR ospfR intfR sysR =>
          let lldpN := if types.contains "lldp" && lldpR.success then
                         some (pset.parseLLDPNeighbors lldpR.output) else none
          let ospfN := if types.contains "ospf" && ospfR.success then
                         some (pset.parseOSPFNeighbors ospfR.output) else none
          let intfL := if types.contains "interfaces" && intfR.success then
                         some (pset.parseInterfaces intfR.output) else none
          let sysI := if types.contains "system" && sysR.success then
                        some (pset.parseSystemInfo sysR.output) else none
          let raw :=
            (if types.contains "lldp" then "\n=== LLDP NEIGHBORS ===\n" ++ lldpR.output ++ "\n" else "") ++
            (if types.contains "ospf" then "\n=== OSPF NEIGHBORS ===\n" ++ ospfR.output ++ "\n" else "") ++
            (if types.contains "interfaces" then "\n=== INTERFACES ===\n" ++ intfR.output ++ "\n" else "") ++
            (if types.contains "system" then "\n=== SYSTEM INFO ===\n" ++ sysR.output ++ "\n" else "")
          let p1 := match lldpN with
                    | some ns => persistLLDPList st1 deviceId ns fid t
                    | none => (st1, fid)
          let p2 := match ospfN with
                    | some ns => persistOSPFList p1.1 deviceId ns p1.2 t
                    | none => p1
          let p3 := match intfL with
                    | some ifs => persistIntfList p2.1 deviceId ifs p2.2 t
                    | none => p2
          let st5 := updateDeviceSysInfo p3.1 deviceId sysI t
          let st6 := historyComplete st5 historyId raw t
          { state := st6
            result := { success := true, deviceId := deviceId, lldpNeighbors := lldpN,
                        ospfNeighbors := ospfN, interfaces := intfL, systemInfo := sysI,
                        rawOutput := some raw, collectedAt := t }
            sshConnected := false
            httpStatus := 200 }

/-! ## Auto-link sweep (topology.ts router.post /auto-links) -/

structure AutoNb where
  local_device_id : Nat
  local_interface : String
  remote_device_id : Nat
  remote_interface : String
deriving Repr, DecidableEq

def pairKey (a b : Nat) : Nat × Nat := (min a b, max a b)

/-- The candidate query: neighbors with a non-null resolved remote
device, one representative per unordered device pair
(`SELECT DISTINCT ON (LEAST(..), GREATEST(..)) ... WHERE
remote_device_id IS NOT NULL`; without ORDER BY the retained
representative is left to the database -- modelled as the first row in
table order). -/
def autoLinkCandidates (ns : List TopologyNeighbor) : List AutoNb :=
  let resolved := ns.filterMap (fun n =>
    match n.remote_device_id with
    | some rid =>
        some { local_device_id := n.local_device_id
               local_interface := n.local_interface
               remote_device_id := rid
               remote_interface := n.remote_interface : AutoNb }
    | none => none)
  resolved.foldl (fun acc n =>
    if acc.any (fun m =>
        pairKey m.local_device_id m.remote_device_id ==
          pairKey n.local_device_id n.remote_device_id) then acc
    else acc ++ [n]) []

structure SweepState where
  links : List TopologyLink
  created : Nat
  skipped : Nat
  fid : Nat
deriving Repr, DecidableEq

/-- Link row inserted by the sweep. -/
def mkAutoLink (fid : Nat) (n : AutoNb) (t : Nat) : TopologyLink :=
  { id := fid
    source_device_id := n.local_device_id
    source_interface := some n.local_interface
    target_device_id := n.remote_device_id
    target_interface := some n.remote_interface
    link_type := "discovered"
    status := "up"
    metadata := [("auto_created", "true")]
    created_at := t
    updated_at := t }

/-- Loop body of the sweep: bidirectional existence check, then insert
and count as created, or skip and count as already existing. -/
def autoLinkStep (t : Nat) (s : SweepState) (n : AutoNb) : SweepState :=
  if hasLinkEither s.links n.local_device_id n.remote_device_id then
    { s with skipped := s.skipped + 1 }
  else
    { links := s.links ++ [mkAutoLink s.fid n t]
      created := s.created + 1
      skipped := s.skipped
      fid := s.fid + 1 }

def autoLinkSweep (links : List TopologyLink) (ns : List TopologyNeighbor) (fid t : Nat) :
    SweepState :=
  (autoLinkCandidates ns).foldl (autoLinkStep t)
    { links := links, created := 0, skipped := 0, fid := fid }

/-! ## Force-directed layout (src/lib/topology.ts, calculateLayout)

Coordinates are exact rationals (idealising JS IEEE doubles);
`Math.sqrt`, the only non-rational operation, is a parameter, so the
theorems below hold for every square-root implementation. -/

/-- Layout-relevant projection of the front end's TopologyNode (label,
device, color and size are carried through untouched by the layout and
are omitted). -/
structure TopologyNode where
  id : Nat
  x : ℚ
  y : ℚ
deriving Repr, DecidableEq

structure TopologyEdge where
  source : Nat
  target : Nat
deriving Repr, DecidableEq

structure SimNode where
  id : Nat
  x : ℚ
  y : ℚ
  vx : ℚ
  vy : ℚ
deriving Repr, DecidableEq

def layoutIterations : Nat := 50
def repulsionK : ℚ := 5000
def attractionK : ℚ := 1 / 100
def dampingK : ℚ := 9 / 10
def layoutPadding : ℚ := 100
def layoutWidth : ℚ := 800
def layoutHeight : ℚ := 600

/-- `Math.sqrt(dx*dx + dy*dy) || 1`. -/
def distOr1 (sqrtQ : ℚ → ℚ) (dx dy : ℚ) : ℚ :=
  let d := sqrtQ (dx * dx + dy * dy)
  if d = 0 then 1 else d

/-- Inner body of the repulsion double loop for the index pair `ab`
(`ab.1 < ab.2`, so the two `set`s hit distinct positions, matching the
in-place object mutation of the source). -/
def repPairStep (sqrtQ : ℚ → ℚ) (ns : List SimNode) (ab : Nat × Nat) : List SimNode :=
  match ns.get? ab.1, ns.get? ab.2 with
  | some na, some nb =>
      let dx := nb.x - na.x
      let dy := nb.y - na.y
      let dist := distOr1 sqrtQ dx dy
      let force := repulsionK / (dist * dist)
      let fx := dx / dist * force
      let fy := dy / dist * force
      (ns.set ab.1 { na with vx := na.vx - fx, vy := na.vy - fy }).set ab.2
        { nb with vx := nb.vx + fx, vy := nb.vy + fy }
  | _, _ => ns

/-- Index pairs `(a, b)` with `a < b`, in the double-loop order. -/
def pairIdxList (n : Nat) : List (Nat × Nat) :=
  ((List.range n).map (fun a =>
    (List.range n).filterMap (fun b => if a < b then some (a, b) else none))).flatten

def applyRepulsion (sqrtQ : ℚ → ℚ) (ns : List SimNode) : List SimNode :=
  (pairIdxList ns.length).foldl (repPairStep sqrtQ) ns

/-- Body of the attraction loop for one edge.  When an endpoint id is
missing the edge is skipped; when `source = target` the computed force
is zero, so the double write is harmless exactly as in the source. -/
def attrStep (sqrtQ : ℚ → ℚ) (ns : List SimNode) (e : TopologyEdge) : List SimNode :=
  match ns.findIdx? (fun n => n.id == e.source), ns.findIdx? (fun n => n.id == e.target) with
  | some ia, some ib =>
      match ns.get? ia, ns.get? ib with
      | some na, some nb =>
          let dx := nb.x - na.x
          let dy := nb.y - na.y
          let dist := distOr1 sqrtQ dx dy
          let force := dist * attractionK
          let fx := dx / dist * force
          let fy := dy / dist * force
          (ns.set ia { na with vx := na.vx + fx, vy := na.vy + fy }).set ib
            { nb with vx := nb.vx - fx, vy := nb.vy - fy }
      | _, _ => ns
  | _, _ => ns

/-- Velocity integration and damping. -/
def integrateStep (ns : List SimNode) : List SimNode :=
  ns.map (fun n =>
    { n with x := n.x + n.vx, y := n.y + n.vy, vx := n.vx * dampingK, vy := n.vy * dampingK })

def layoutIter (sqrtQ : ℚ → ℚ) (edges : List TopologyEdge) (ns : List SimNode) : List SimNode :=
  integrateStep ((edges.foldl (attrStep sqrtQ) (applyRepulsion sqrtQ ns)))

def iterateLayout (sqrtQ : ℚ → ℚ) (edges : List TopologyEdge) :
    Nat → List SimNode → List SimNode
  | 0, ns => ns
  | k + 1, ns => iterateLayout sqrtQ edges k (layoutIter sqrtQ edges ns)

def minXOf : List SimNode → ℚ
  | [] => 0
  | h :: tl => tl.foldl (fun m n => min m n.x) h.x

def maxXOf : List SimNode → ℚ
  | [] => 0
  | h :: tl => tl.foldl (fun m n => max m n.x) h.x

def minYOf : List SimNode → ℚ
  | [] => 0
  | h :: tl => tl.foldl (fun m n => min m n.y) h.y

def maxYOf : List SimNode → ℚ
  | [] => 0
  | h :: tl => tl.foldl (fun m n => max m n.y) h.y

/-- Final min/max normalisation into the padded canvas
(`(maxX - minX) || 1` guards the degenerate all-equal case; the `[]`
branch of the min/max folds is never reached for the non-empty inputs
the theorems quantify over). -/
def normalizePositions (ns : List SimNode) : List TopologyNode :=
  let minX := minXOf ns
  let maxX := maxXOf ns
  let minY := minYOf ns
  let maxY := maxYOf ns
  let dX := if maxX - minX = 0 then 1 else maxX - minX
  let dY := if maxY - minY = 0 then 1 else maxY - minY
  ns.map (fun n =>
    { id := n.id
      x := layoutPadding + (n.x - minX) / dX * (layoutWidth - layoutPadding * 2)
      y := layoutPadding + (n.y - minY) / dY * (layoutHeight - layoutPadding * 2) })

def calculateLayout (sqrtQ : ℚ → ℚ) (nodes : List TopologyNode) (edges : List TopologyEdge) :
    List TopologyNode :=
  let layoutNodes := nodes.map (fun n => { id := n.id, x := n.x, y := n.y, vx := 0, vy := 0 : SimNode })
  normalizePositions (iterateLayout sqrtQ edges layoutIterations layoutNodes)

/-! ## Statement-level predicates and spec-side comparison definitions -/

/-- Two link rows denote the same unordered device pair. -/
def pairClash (a b : TopologyLink) : Bool :=
  (a.source_device_id == b.source_device_id && a.target_device_id == b.target_device_id) ||
    (a.source_device_id == b.target_device_id && a.target_device_id == b.source_device_id)

/-- Direction-agnostic uniqueness: no two rows for the same unordered
device pair. -/
def linksNoDupPairs (links : List TopologyLink) : Prop :=
  links.Pairwise (fun a b => pairClash a b = false)

/-- Unordered device pairs of a link table, row by row. -/
def linkPairs (links : List TopologyLink) : List (Nat × Nat) :=
  links.map (fun l => pairKey l.source_device_id l.target_device_id)

/-- Modelled from the spec: remote-device resolution in the claimed
priority order -- a case-insensitive exact pass over hostname/display
name first (on the domain-stripped name), failing that a substring
pass, and only then the management-address lookup.  Used solely to
compare the claimed semantics against `resolveRemoteDevice`. -/
def resolveSpecPriority (devices : List NetworkDevice) (remoteName : String)
    (remoteIP : Option String) : Option Nat :=
  let ipFallback : Option Nat :=
    match remoteIP with
    | some ipStr =>
        if ipStr ≠ "" then
          (devices.find? (fun d => d.ip_address == ipStr)).map (fun d => d.id)
        else none
    | none => none
  if remoteName ≠ "" then
    let searchName := ((splitOnChar '.' remoteName).get? 0).getD ""
    match devices.find? (fun d => eqCI d.hostname searchName || eqCI d.name searchName) with
    | some d => some d.id
    | none =>
        match devices.find? (fun d =>
            containsCI d.hostname searchName || containsCI d.name searchName) with
        | some d => some d.id
        | none => ipFallback
  else ipFallback

/-- Amended resolution semantics: the name lookup is one case-insensitive
substring pass over hostname and display name (an exact match is a
special case of containment and carries no priority); the IP lookup
runs only when the name pass found nothing. -/
def resolveNameSubstring (devices : List NetworkDevice) (remoteName : String)
    (remoteIP : Option String) : Option Nat :=
  let byName : Option Nat :=
    if remoteName ≠ "" then
      let searchName := ((splitOnChar '.' remoteName).get? 0).getD ""
      (devices.find? (fun d =>
        containsCI d.hostname searchName || containsCI d.name searchName)).map (fun d => d.id)
    else none
  match byName with
  | some i => some i
  | none =>
      match remoteIP with
      | some ipStr =>
          if ipStr ≠ "" then
            (devices.find? (fun d => d.ip_address == ipStr)).map (fun d => d.id)
          else none
      | none => none

/-- Skippable line of a Huawei LLDP block: blank after trimming, a
header starting with `Local`, or a separator starting with `-`. -/
def Huawei.isSkipLine (l : String) : Bool :=
  jsTrim l = "" || jsStartsWith (jsTrim l) "Local" || jsStartsWith (jsTrim l) "-"

/-- Well-formed Huawei LLDP data line: not skippable, at least three
whitespace-separated columns, the first carrying a recognised
interface-name prefix. -/
def Huawei.isDataLine (l : String) : Bool :=
  !Huawei.isSkipLine l && decide (3 ≤ (wsTokens (jsTrim l)).length) &&
    anyPrefixCI Huawei.lldpIntfAlts (((wsTokens (jsTrim l)).get? 0).getD "")

/-- Record carried by a well-formed Huawei LLDP data line: columns 1-3
of the line, plus the incidental IPv4 extraction and raw capture. -/
def Huawei.dataRecord (l : String) : ParsedLLDPNeighbor :=
  { localInterface := ((wsTokens (jsTrim l)).get? 0).getD ""
    remoteDeviceName := ((wsTokens (jsTrim l)).get? 1).getD ""
    remoteInterface := ((wsTokens (jsTrim l)).get? 2).getD ""
    remoteIP := searchCap ipv4Rx (jsTrim l) 1
    rawData := [("originalLine", jsTrim l)] }

/-! ### Concrete fixtures used by witnesses -/

def wDev1 : NetworkDevice :=
  { id := 1, name := "CORE-SW-DIST-01-B", hostname := "h1", ip_address := "10.0.0.1",
    vendor := .huawei }

def wDev2 : NetworkDevice :=
  { id := 2, name := "SW-DIST-01", hostname := "h2", ip_address := "10.0.0.2",
    vendor := .cisco }

def wDevs : List NetworkDevice := [wDev1, wDev2]

def wNb0 : TopologyNeighbor :=
  { id := 10, local_device_id := 1, local_interface := "GE0/0/1", remote_device_id := some 9,
    remote_device_name := "OLD", remote_interface := "OLDIF", remote_ip := none,
    discovery_protocol := "lldp", raw_data := [("k", "v")], discovered_at := 5,
    last_updated := 5 }

def wNb1 : TopologyNeighbor :=
  { id := 11, local_device_id := 1, local_interface := "GE0/0/1",
    remote_device_name := "SW-DIST-01", remote_interface := "GE0/0/24",
    remote_ip := some "10.0.0.9", discovery_protocol := "lldp", raw_data := [("k", "w")],
    discovered_at := 7, last_updated := 7 }

/-- A manual B-to-A link (source 2, target 1). -/
def wLinkBA : TopologyLink :=
  { id := 90, source_device_id := 2, source_interface := some "GE0/0/24",
    target_device_id := 1, target_interface := some "GE0/0/1", link_type := "physical",
    status := "up", created_at := 1, updated_at := 1 }

def wOspfNb : ParsedOSPFNeighbor :=
  { neighborId := "10.0.0.7", neighborIP := "10.0.0.7", state := "Full/DR",
    interface := "GE0/0/3", area := "0", rawData := [("originalLine", "x")] }

def wLLDPNb : ParsedLLDPNeighbor :=
  { localInterface := "GE0/0/9", remoteDeviceName := "zzz", remoteInterface := "GE0/0/2",
    rawData := [("originalLine", "y")] }

def wState : DBState :=
  { devices := wDevs, neighbors := [wNb0], links := [wLinkBA], interfaces := [], history := [] }

/-- The spec's example Huawei link-layer-discovery block: header,
separator, four data lines. -/
def wHuaweiHeaderLines : List String :=
  ["Local Interface    Neighbor Device     Neighbor Interface  Exptime(s)",
   "--------------------------------------------------------------------"]

def wHuaweiDataLines : List String :=
  ["GE0/0/1 SW-DIST-01 GE0/0/24",
   "GE0/0/2 SW-DIST-02 GE0/0/24",
   "GE0/0/3 SW-ACCESS-01 GE0/0/1",
   "GE0/0/4 ROUTER-EDGE-01 GE0/0/0"]

end NetWeaver


/-! # Theorems -/

namespace NetWeaver

/-! ## Shared helper lemmas -/

theorem linkEitherDir_false_of_find_none {links : List TopologyLink} {a b : Nat}
    (h : findLinkEither links a b = none) :
    ∀ l ∈ links, linkEitherDir a b l = false := by
  intro l hl
  have := List.find?_eq_none.mp h l hl
  simpa using this

theorem pairClash_newLink (x : TopologyLink) (fid a : Nat) (li : String) (b : Nat)
    (ri rn : String) (t : Nat) :
    pairClash x (mkDiscoveredLink fid a li b ri rn t) = linkEitherDir a b x := by
  simp [pairClash, linkEitherDir, mkDiscoveredLink, Bool.or_comm]

theorem pairClash_autoLink (x : TopologyLink) (fid : Nat) (n : AutoNb) (t : Nat) :
    pairClash x (mkAutoLink fid n t) =
      linkEitherDir n.local_device_id n.remote_device_id x := by
  simp [pairClash, linkEitherDir, mkAutoLink, Bool.or_comm]

theorem refreshLink_fields (li ri : String) (t : Nat) (k : TopologyLink) :
    (refreshLink li ri t k).source_device_id = k.source_device_id ∧
      (refreshLink li ri t k).target_device_id = k.target_device_id ∧
      (refreshLink li ri t k).id = k.id := ⟨rfl, rfl, rfl⟩

theorem pairClash_refresh_map (l : TopologyLink) (li ri : String) (t : Nat) (x y : TopologyLink) :
    pairClash (if x.id == l.id then refreshLink li ri t x else x)
        (if y.id == l.id then refreshLink li ri t y else y) = pairClash x y := by
  by_cases hx : (x.id == l.id) = true <;> by_cases hy : (y.id == l.id) = true <;>
    simp [hx, hy, pairClash, refreshLink]

theorem nodup_linkUpsert (links : List TopologyLink) (a : Nat) (li : String) (b : Nat)
    (ri rn : String) (fid t : Nat) (hnd : linksNoDupPairs links) :
    linksNoDupPairs (linkUpsert links a li b ri rn fid t) := by
  unfold linkUpsert
  cases hfind : findLinkEither links a b with
  | none =>
      simp only [linksNoDupPairs] at hnd ⊢
      rw [List.pairwise_append]
      refine ⟨hnd, by simp, ?_⟩
      intro x hx y hy
      simp only [List.mem_singleton] at hy
      subst hy
      rw [pairClash_newLink]
      exact linkEitherDir_false_of_find_none hfind x hx
  | some l =>
      simp only [linksNoDupPairs] at hnd ⊢
      rw [List.pairwise_map]
      exact hnd.imp (fun {x y} hxy => by rw [pairClash_refresh_map]; exact hxy)

theorem linkEitherDir_false_of_not_has {links : List TopologyLink} {a b : Nat}
    (h : hasLinkEither links a b = false) :
    ∀ l ∈ links, linkEitherDir a b l = false := by
  intro l hl
  by_contra hne
  have : linkEitherDir a b l = true := by
    cases hv : linkEitherDir a b l with
    | false => exact absurd hv hne
    | true => rfl
  exact absurd (List.any_eq_true.mpr ⟨l, hl, this⟩) (by simp [hasLinkEither] at h ⊢; exact h)

theorem nodup_sweep_fold (t : Nat) :
    ∀ (cands : List AutoNb) (s : SweepState), linksNoDupPairs s.links →
      linksNoDupPairs ((cands.foldl (autoLinkStep t) s).links) := by
  intro cands
  induction cands with
  | nil => intro s hs; exact hs
  | cons n rest ih =>
      intro s hs
      simp only [List.foldl_cons]
      apply ih
      unfold autoLinkStep
      by_cases hhas : hasLinkEither s.links n.local_device_id n.remote_device_id = true
      · simp [hhas]; exact hs
      · have hf : hasLinkEither s.links n.local_device_id n.remote_device_id = false := by
          cases hv : hasLinkEither s.links n.local_device_id n.remote_device_id with
          | false => rfl
          | true => exact absurd hv hhas
        simp only [hf, Bool.false_eq_true, if_neg, ite_false]
        simp only [linksNoDupPairs] at hs ⊢
        rw [List.pairwise_append]
        refine ⟨hs, by simp, ?_⟩
        intro x hx y hy
        simp only [List.mem_singleton] at hy
        subst hy
        rw [pairClash_autoLink]
        exact linkEitherDir_false_of_not_has hf x hx

/-! ## C1 -/

/-- C1: the link-inference engine never creates two rows for the same
unordered device pair.  The per-neighbor create-or-update (`linkUpsert`)
preserves direction-agnostic uniqueness; when a link between the two
devices already exists in either direction (for example a prior manual
B-to-A link rediscovered as A-to-B) the row count and the unordered
pair list are unchanged and the existing row is refreshed in place
(interfaces and status updated, endpoints kept); and the bulk auto-link
sweep preserves the same uniqueness invariant. -/
theorem link_dedup_direction_agnostic (links : List TopologyLink) (a : Nat) (li : String)
    (b : Nat) (ri rn : String) (fid t : Nat) (ns : List TopologyNeighbor)
    (hnd : linksNoDupPairs links) :
    linksNoDupPairs (linkUpsert links a li b ri rn fid t) ∧
    (∀ l, findLinkEither links a b = some l →
      (linkUpsert links a li b ri rn fid t).length = links.length ∧
      linkPairs (linkUpsert links a li b ri rn fid t) = linkPairs links ∧
      refreshLink li ri t l ∈ linkUpsert links a li b ri rn fid t ∧
      (refreshLink li ri t l).source_device_id = l.source_device_id ∧
      (refreshLink li ri t l).target_device_id = l.target_device_id ∧
      (refreshLink li ri t l).source_interface = some li ∧
      (refreshLink li ri t l).status = "up") ∧
    linksNoDupPairs (autoLinkSweep links ns fid t).links := by
  refine ⟨nodup_linkUpsert links a li b ri rn fid t hnd, ?_, ?_⟩
  · intro l hl
    have hmem : l ∈ links := List.mem_of_find?_eq_some hl
    unfold linkUpsert
    rw [hl]
    refine ⟨by simp, ?_, ?_, rfl, rfl, rfl, rfl⟩
    · unfold linkPairs
      rw [List.map_map]
      apply List.map_congr_left
      intro x _
      by_cases hx : x.id = l.id <;> simp [hx, beq_iff_eq, refreshLink, pairKey]
    · have : (fun k => if k.id == l.id then refreshLink li ri t k else k) l =
          refreshLink li ri t l := by simp
      rw [← this]
      exact List.mem_map_of_mem _ hmem
  · exact nodup_sweep_fold t (autoLinkCandidates ns) _ hnd

/-- Witness for C1 at a concrete input: a stored manual 2-to-1 link is
found by the 1-to-2 discovery, uniqueness is preserved and no second
row appears. -/
theorem link_dedup_direction_agnostic_witness :
    linksNoDupPairs (linkUpsert [wLinkBA] 1 "GE0/0/1" 2 "GE0/0/24" "SW-DIST-01" 70 9) ∧
    (linkUpsert [wLinkBA] 1 "GE0/0/1" 2 "GE0/0/24" "SW-DIST-01" 70 9).length = 1 :=
  ⟨(link_dedup_direction_agnostic [wLinkBA] 1 "GE0/0/1" 2 "GE0/0/24" "SW-DIST-01" 70 9 []
      (by simp [linksNoDupPairs])).1,
    ((link_dedup_direction_agnostic [wLinkBA] 1 "GE0/0/1" 2 "GE0/0/24" "SW-DIST-01" 70 9 []
      (by simp [linksNoDupPairs])).2.1 wLinkBA (by decide)).1⟩

/-! ## C2 -/

/-- C2: a neighbor upsert that hits an existing row keyed by (local
device, local interface, discovery protocol) overwrites exactly
`remote_device_name`, `remote_interface`, `remote_ip`, `raw_data` and
`last_updated`; `discovered_at` (as well as the id, the key fields and
`remote_device_id`) keeps its original value, and `last_updated`
strictly increases whenever the new observation's timestamp is later
than the stored one (successive `new Date()` draws are monotone). -/
theorem neighbor_upsert_frame (rows : List TopologyNeighbor) (nr r : TopologyNeighbor)
    (hmem : r ∈ rows) (hkey : neighborKeyMatches nr r = true) :
    upsertNeighbor rows nr =
      rows.map (fun x => if neighborKeyMatches nr x then updNeighborFields x nr else x) ∧
    (updNeighborFields r nr).discovered_at = r.discovered_at ∧
    (updNeighborFields r nr).last_updated = nr.last_updated ∧
    (updNeighborFields r nr).remote_device_id = r.remote_device_id ∧
    (updNeighborFields r nr).id = r.id ∧
    (updNeighborFields r nr).local_device_id = r.local_device_id ∧
    (updNeighborFields r nr).local_interface = r.local_interface ∧
    (updNeighborFields r nr).discovery_protocol = r.discovery_protocol ∧
    (r.last_updated < nr.last_updated →
      r.last_updated < (updNeighborFields r nr).last_updated) := by
  refine ⟨?_, rfl, rfl, rfl, rfl, rfl, rfl, rfl, fun h => h⟩
  unfold upsertNeighbor
  rw [if_pos (List.any_eq_true.mpr ⟨r, hmem, hkey⟩)]

/-- Witness for C2 at a concrete repeated observation: discovered-at
stays 5, last-updated becomes 7. -/
theorem neighbor_upsert_frame_witness :
    upsertNeighbor [wNb0] wNb1 =
      [wNb0].map (fun x => if neighborKeyMatches wNb1 x then updNeighborFields x wNb1 else x) ∧
    (updNeighborFields wNb0 wNb1).discovered_at = 5 ∧
    (updNeighborFields wNb0 wNb1).last_updated = 7 ∧
    (updNeighborFields wNb0 wNb1).remote_device_id = some 9 :=
  ⟨(neighbor_upsert_frame [wNb0] wNb1 wNb0 (by decide) (by decide)).1,
    by decide, by decide, by decide⟩


/-! ## C3 helper lemmas -/

theorem hasLink_mono_append {ls : List TopologyLink} {a b : Nat} (more : List TopologyLink)
    (h : hasLinkEither ls a b = true) : hasLinkEither (ls ++ more) a b = true := by
  simp only [hasLinkEither, List.any_append, Bool.or_eq_true]
  exact Or.inl h

theorem sweep_fold_links_append (t : Nat) :
    ∀ (cands : List AutoNb) (s : SweepState),
      ∃ more, ((cands.foldl (autoLinkStep t) s).links) = s.links ++ more := by
  intro cands
  induction cands with
  | nil => intro s; exact ⟨[], by simp⟩
  | cons n rest ih =>
      intro s
      simp only [List.foldl_cons]
      obtain ⟨m2, hm2⟩ := ih (autoLinkStep t s n)
      by_cases h : hasLinkEither s.links n.local_device_id n.remote_device_id = true
      · refine ⟨m2, ?_⟩
        rw [hm2]
        simp [autoLinkStep, h]
      · refine ⟨mkAutoLink s.fid n t :: m2, ?_⟩
        rw [hm2]
        simp [autoLinkStep, h, List.append_assoc]

theorem sweep_fold_covers (t : Nat) :
    ∀ (cands : List AutoNb) (s : SweepState) (n : AutoNb), n ∈ cands →
      hasLinkEither ((cands.foldl (autoLinkStep t) s).links)
        n.local_device_id n.remote_device_id = true := by
  intro cands
  induction cands with
  | nil => intro s n h; simp at h
  | cons m rest ih =>
      intro s n hn
      simp only [List.foldl_cons]
      rcases List.mem_cons.mp hn with rfl | hn2
      · obtain ⟨more, hmore⟩ := sweep_fold_links_append t rest (autoLinkStep t s n)
        rw [hmore]
        apply hasLink_mono_append
        by_cases h : hasLinkEither s.links n.local_device_id n.remote_device_id = true
        · have hstep : autoLinkStep t s n = { s with skipped := s.skipped + 1 } := by
            unfold autoLinkStep; rw [if_pos h]
          rw [hstep]
          exact h
        · rw [Bool.not_eq_true] at h
          have hstep : autoLinkStep t s n =
              { links := s.links ++ [mkAutoLink s.fid n t], created := s.created + 1,
                skipped := s.skipped, fid := s.fid + 1 } := by
            unfold autoLinkStep; rw [h]; simp
          rw [hstep]
          simp [hasLinkEither, List.any_append, linkEitherDir, mkAutoLink]
      · exact ih _ n hn2

theorem sweep_fold_skip_all (t : Nat) :
    ∀ (cands : List AutoNb) (s : SweepState),
      (∀ n ∈ cands, hasLinkEither s.links n.local_device_id n.remote_device_id = true) →
      cands.foldl (autoLinkStep t) s =
        { links := s.links, created := s.created, skipped := s.skipped + cands.length,
          fid := s.fid } := by
  intro cands
  induction cands with
  | nil => intro s _; simp
  | cons n rest ih =>
      intro s h
      simp only [List.foldl_cons]
      have hn := h n (List.mem_cons_self n rest)
      have hstep : autoLinkStep t s n = { s with skipped := s.skipped + 1 } := by
        unfold autoLinkStep; rw [if_pos hn]
      rw [hstep]
      rw [ih { s with skipped := s.skipped + 1 } (fun m hm => h m (List.mem_cons_of_mem n hm))]
      dsimp only
      simp only [List.length_cons]
      congr 1
      omega

theorem sweep_fold_count (t : Nat) :
    ∀ (cands : List AutoNb) (s : SweepState),
      (cands.foldl (autoLinkStep t) s).created + (cands.foldl (autoLinkStep t) s).skipped =
        s.created + s.skipped + cands.length := by
  intro cands
  induction cands with
  | nil => intro s; simp
  | cons n rest ih =>
      intro s
      simp only [List.foldl_cons]
      rw [ih]
      unfold autoLinkStep
      by_cases h : hasLinkEither s.links n.local_device_id n.remote_device_id = true <;>
        simp [h, List.length_cons] <;> omega

/-! ## C3 -/

/-- C3: running the auto-link sweep a second time over an unchanged
stored-neighbor set creates zero additional links (`created = 0`),
leaves the link table exactly as the first run left it, and mutates no
existing link (the first run only appends rows after the untouched
input table); each run reports created vs already-existing counts that
add up to the number of distinct unordered candidate pairs, so the
second run reports every candidate as already existing. -/
theorem auto_link_sweep_idempotent (links : List TopologyLink) (ns : List TopologyNeighbor)
    (fid1 t1 fid2 t2 : Nat) :
    (autoLinkSweep (autoLinkSweep links ns fid1 t1).links ns fid2 t2).created = 0 ∧
    (autoLinkSweep (autoLinkSweep links ns fid1 t1).links ns fid2 t2).links =
      (autoLinkSweep links ns fid1 t1).links ∧
    (∃ newRows, (autoLinkSweep links ns fid1 t1).links = links ++ newRows) ∧
    (autoLinkSweep links ns fid1 t1).created + (autoLinkSweep links ns fid1 t1).skipped =
      (autoLinkCandidates ns).length ∧
    (autoLinkSweep (autoLinkSweep links ns fid1 t1).links ns fid2 t2).skipped =
      (autoLinkCandidates ns).length := by
  have hcov : ∀ n ∈ autoLinkCandidates ns,
      hasLinkEither (autoLinkSweep links ns fid1 t1).links
        n.local_device_id n.remote_device_id = true := by
    intro n hn
    unfold autoLinkSweep
    exact sweep_fold_covers t1 (autoLinkCandidates ns) _ n hn
  have hskip := sweep_fold_skip_all t2 (autoLinkCandidates ns)
    { links := (autoLinkSweep links ns fid1 t1).links, created := 0, skipped := 0, fid := fid2 }
    (by simpa using hcov)
  have h2 : autoLinkSweep (autoLinkSweep links ns fid1 t1).links ns fid2 t2 =
      { links := (autoLinkSweep links ns fid1 t1).links, created := 0,
        skipped := 0 + (autoLinkCandidates ns).length, fid := fid2 } := by
    unfold autoLinkSweep
    exact hskip
  refine ⟨by rw [h2], by rw [h2], ?_, ?_, by rw [h2]; simp⟩
  · unfold autoLinkSweep
    simpa using sweep_fold_links_append t1 (autoLinkCandidates ns)
      { links := links, created := 0, skipped := 0, fid := fid1 }
  · unfold autoLinkSweep
    simpa using sweep_fold_count t1 (autoLinkCandidates ns)
      { links := links, created := 0, skipped := 0, fid := fid1 }


/-! ## C4 helper lemmas -/

theorem isPrefixOf_refl_list (l : List Char) : l.isPrefixOf l = true := by
  induction l with
  | nil => rfl
  | cons c cs ih => simp [List.isPrefixOf, ih]

theorem containsLC_self (l : List Char) : containsLC l l = true := by
  unfold containsLC
  rw [isPrefixOf_refl_list]
  simp

theorem containsCI_of_eqCI {a b : String} (h : eqCI a b = true) : containsCI a b = true := by
  unfold eqCI at h
  rw [beq_iff_eq] at h
  unfold containsCI
  rw [h]
  exact containsLC_self _

theorem find?_congr_local {α : Type} (p q : α → Bool) (hpq : ∀ x, p x = q x) :
    ∀ l : List α, l.find? p = l.find? q := by
  intro l
  induction l with
  | nil => rfl
  | cons a as ih => simp [List.find?_cons, hpq a, ih]

theorem resolve_pred_pointwise (s : String) (d : NetworkDevice) :
    (eqCI d.hostname s || eqCI d.name s ||
        containsCI d.hostname s || containsCI d.name s) =
      (containsCI d.hostname s || containsCI d.name s) := by
  by_cases h1 : eqCI d.hostname s = true
  · simp [h1, containsCI_of_eqCI h1]
  · by_cases h2 : eqCI d.name s = true
    · simp [h2, containsCI_of_eqCI h2]
    · rw [Bool.not_eq_true] at h1 h2
      simp [h1, h2]

/-! ## C4 -/

/-- Counterexample to C4 as stated: with device 1 (name
CORE-SW-DIST-01-B) listed before the exactly-named device 2
(SW-DIST-01), the code resolves the reported SW-DIST-01.domain.local to
device 1 via substring containment, while the claimed
exact-match-first priority would pick device 2.  The name lookup is one
OR-query with no priority between its exact and substring conditions. -/
theorem resolve_priority_counterexample :
    resolveRemoteDevice wDevs "SW-DIST-01.domain.local" none = some 1 ∧
    resolveSpecPriority wDevs "SW-DIST-01.domain.local" none = some 2 ∧
    resolveRemoteDevice wDevs "SW-DIST-01.domain.local" none ≠
      resolveSpecPriority wDevs "SW-DIST-01.domain.local" none := by
  refine ⟨by decide, by decide, by decide⟩

/-- C4 amended: remote-device resolution is a single combined name
lookup -- the first device in registry order whose hostname or display
name case-insensitively CONTAINS the domain-stripped reported name wins
(an exact match is a special case of containment and carries no
priority); only when that lookup fails and a remote IP was reported
does the exact management-address match run.  A neighbor whose
resolution fails (for example an unregistered name and no IP) keeps a
null resolved remote device: its stored row carries
`remote_device_id = none`, the link table is untouched, and the
neighbor table changes only by the plain upsert. -/
theorem resolve_substring_first_and_null_case (devices : List NetworkDevice)
    (remoteName : String) (remoteIP : Option String) :
    resolveRemoteDevice devices remoteName remoteIP =
      resolveNameSubstring devices remoteName remoteIP ∧
    (∀ (st : DBState) (deviceId : Nat) (nb : ParsedLLDPNeighbor) (fid t : Nat),
      resolveRemoteDevice st.devices nb.remoteDeviceName nb.remoteIP = none →
      (processLLDPNeighbor st deviceId nb fid t).links = st.links ∧
      (processLLDPNeighbor st deviceId nb fid t).neighbors =
        upsertNeighbor st.neighbors (mkLLDPRow deviceId nb fid t) ∧
      (mkLLDPRow deviceId nb fid t).remote_device_id = none) := by
  constructor
  · unfold resolveRemoteDevice resolveNameSubstring
    by_cases hname : remoteName ≠ ""
    · simp only [if_pos hname]
      rw [find?_congr_local _ _
        (resolve_pred_pointwise (((splitOnChar '.' remoteName).get? 0).getD "")) devices]
    · simp only [if_neg hname]
  · intro st deviceId nb fid t hres
    refine ⟨?_, ?_, rfl⟩ <;>
      · unfold processLLDPNeighbor
        dsimp only
        rw [hres]


/-- Witness for C4's amended claim at a concrete input: an unregistered
name with no IP resolves to nothing, creates no link, and the stored
row keeps a null remote device. -/
theorem resolve_substring_first_witness :
    resolveRemoteDevice wDevs "zzz" none = resolveNameSubstring wDevs "zzz" none ∧
    (processLLDPNeighbor wState 1 wLLDPNb 40 8).links = wState.links ∧
    (mkLLDPRow 1 wLLDPNb 40 8).remote_device_id = none :=
  ⟨(resolve_substring_first_and_null_case wDevs "zzz" none).1,
   ((resolve_substring_first_and_null_case wDevs "zzz" none).2 wState 1 wLLDPNb 40 8
     (by decide)).1,
   ((resolve_substring_first_and_null_case wDevs "zzz" none).2 wState 1 wLLDPNb 40 8
     (by decide)).2.2⟩

/-! ## C10 helper lemmas -/

theorem upsertNeighbor_mem {rows : List TopologyNeighbor} {nr r : TopologyNeighbor}
    (h : r ∈ upsertNeighbor rows nr) :
    r ∈ rows ∨ r = nr ∨
      ∃ x ∈ rows, neighborKeyMatches nr x = true ∧ r = updNeighborFields x nr := by
  unfold upsertNeighbor at h
  by_cases hany : rows.any (neighborKeyMatches nr) = true
  · rw [if_pos hany] at h
    obtain ⟨x, hx, hfx⟩ := List.mem_map.mp h
    by_cases hk : neighborKeyMatches nr x = true
    · right; right
      refine ⟨x, hx, hk, ?_⟩
      rw [← hfx, if_pos hk]
    · left
      rw [← hfx, if_neg hk]
      exact hx
  · rw [if_neg hany] at h
    rcases List.mem_append.mp h with h1 | h2
    · exact Or.inl h1
    · right; left
      simpa using h2

theorem persistOSPF_cons (st : DBState) (deviceId : Nat) (nb : ParsedOSPFNeighbor)
    (rest : List ParsedOSPFNeighbor) (fid t : Nat) :
    persistOSPFList st deviceId (nb :: rest) fid t =
      persistOSPFList
        { st with neighbors := upsertNeighbor st.neighbors (mkOSPFRow deviceId nb fid t) }
        deviceId rest (fid + 1) t := rfl

theorem persistOSPF_frame (deviceId t : Nat) :
    ∀ (ns : List ParsedOSPFNeighbor) (st : DBState) (fid : Nat),
      (persistOSPFList st deviceId ns fid t).1.links = st.links ∧
      (persistOSPFList st deviceId ns fid t).1.devices = st.devices ∧
      (persistOSPFList st deviceId ns fid t).1.interfaces = st.interfaces ∧
      (persistOSPFList st deviceId ns fid t).1.history = st.history := by
  intro ns
  induction ns with
  | nil => intro st fid; exact ⟨rfl, rfl, rfl, rfl⟩
  | cons nb rest ih =>
      intro st fid
      rw [persistOSPF_cons]
      exact ih _ (fid + 1)

theorem persistOSPF_rows (deviceId t : Nat) (orig : List TopologyNeighbor) :
    ∀ (ns : List ParsedOSPFNeighbor) (st : DBState) (fid : Nat),
      (∀ r ∈ st.neighbors,
        (r.discovery_protocol = "ospf" → r.remote_device_id = none) ∧
        (r ∉ orig → r.remote_interface = "" ∧ r.discovery_protocol = "ospf")) →
      ∀ r ∈ (persistOSPFList st deviceId ns fid t).1.neighbors,
        (r.discovery_protocol = "ospf" → r.remote_device_id = none) ∧
        (r ∉ orig → r.remote_interface = "" ∧ r.discovery_protocol = "ospf") := by
  intro ns
  induction ns with
  | nil => intro st fid h; exact h
  | cons nb rest ih =>
      intro st fid h
      rw [persistOSPF_cons]
      apply ih
      intro r hr
      rcases upsertNeighbor_mem hr with hmem | rfl | ⟨x, hx, hk, rfl⟩
      · exact h r hmem
      · exact ⟨fun _ => rfl, fun _ => ⟨rfl, rfl⟩⟩
      · have hproto : x.discovery_protocol = "ospf" := by
          simp [neighborKeyMatches, mkOSPFRow] at hk
          exact hk.2
        refine ⟨fun _ => ?_, fun _ => ⟨rfl, ?_⟩⟩
        · exact (h x hx).1 hproto
        · exact hproto

/-! ## C10 -/

/-- C10: only LLDP records trigger remote-device resolution and link
creation.  OSPF persistence leaves the link table (and devices,
interfaces, history) unchanged, every row it adds carries an empty
remote_interface and protocol ospf, and -- since only the lldp branch
ever writes `remote_device_id` -- every ospf row still has a null
resolved remote device afterwards (given they all did before). -/
theorem ospf_persistence_frame (st : DBState) (deviceId : Nat)
    (ns : List ParsedOSPFNeighbor) (fid t : Nat)
    (hnull : ∀ r ∈ st.neighbors, r.discovery_protocol = "ospf" → r.remote_device_id = none) :
    (persistOSPFList st deviceId ns fid t).1.links = st.links ∧
    (persistOSPFList st deviceId ns fid t).1.devices = st.devices ∧
    (persistOSPFList st deviceId ns fid t).1.interfaces = st.interfaces ∧
    (∀ r ∈ (persistOSPFList st deviceId ns fid t).1.neighbors,
      (r.discovery_protocol = "ospf" → r.remote_device_id = none) ∧
      (r ∉ st.neighbors → r.remote_interface = "" ∧ r.discovery_protocol = "ospf")) := by
  have hframe := persistOSPF_frame deviceId t ns st fid
  refine ⟨hframe.1, hframe.2.1, hframe.2.2.1, ?_⟩
  apply persistOSPF_rows deviceId t st.neighbors ns st fid
  intro r hr
  exact ⟨hnull r hr, fun hc => absurd hr hc⟩

/-- Witness for C10 at a concrete OSPF observation. -/
theorem ospf_persistence_frame_witness :
    (persistOSPFList wState 1 [wOspfNb] 30 6).1.links = wState.links ∧
    (∀ r ∈ (persistOSPFList wState 1 [wOspfNb] 30 6).1.neighbors,
      r.discovery_protocol = "ospf" → r.remote_device_id = none) :=
  ⟨(ospf_persistence_frame wState 1 [wOspfNb] 30 6 (by decide)).1,
   fun r hr => ((ospf_persistence_frame wState 1 [wOspfNb] 30 6 (by decide)).2.2.2 r hr).1⟩


/-! ## C5 helper lemmas -/

theorem find?_status_after_update {devices : List NetworkDevice} {i : Nat} {d : NetworkDevice}
    (hfind : devices.find? (fun x => x.id == i) = some d) :
    ∃ d2,
      (devices.map (fun x => if x.id == i then { x with status := "error" } else x)).find?
          (fun x => x.id == i) = some d2 ∧
        d2.status = "error" := by
  have hcong : ∀ x : NetworkDevice,
      ((fun x => x.id == i) ∘ fun x => if x.id == i then { x with status := "error" } else x) x =
        (fun x => x.id == i) x := by
    intro x
    by_cases hx : (x.id == i) = true
    · simp only [Function.comp_apply, if_pos hx]
    · simp only [Function.comp_apply, if_neg hx]
  refine ⟨if d.id == i then { d with status := "error" } else d, ?_, ?_⟩
  · rw [List.find?_map, find?_congr_local _ _ hcong devices, hfind]
    rfl
  · rw [if_pos (List.find?_some hfind)]

theorem history_after_fail {hist : List CollectionHistory} {hid : Nat} {msg : String} {t : Nat} :
    ∀ h ∈ hist.map (fun h =>
        if h.id == hid then
          { h with status := "failed", completed_at := some t, error_message := some msg }
        else h),
      h.id = hid → h.status = "failed" ∧ h.error_message = some msg := by
  intro h hh hid2
  obtain ⟨x, hx, rfl⟩ := List.mem_map.mp hh
  by_cases hxid : (x.id == hid) = true
  · rw [if_pos hxid]
    exact ⟨rfl, rfl⟩
  · rw [if_neg hxid] at hid2
    rw [Bool.not_eq_true, beq_eq_false_iff_ne] at hxid
    exact absurd hid2 hxid

/-! ## C5 -/

/-- C5: a collection attempt whose session open fails transitions
directly to failed with the error message recorded on its history row,
sets the device status to error, processes and persists no parsed
records (the neighbor, link and interface tables are untouched and the
result carries no parsed data), and leaves the session closed. -/
theorem session_open_failure (st : DBState) (deviceId : Nat) (types : List String)
    (msg : String) (historyId fid t : Nat) (d : NetworkDevice)
    (hfind : st.devices.find? (fun x => x.id == deviceId) = some d) :
    (collectDevice st deviceId types (.connectFail msg) historyId fid t).state.neighbors =
      st.neighbors ∧
    (collectDevice st deviceId types (.connectFail msg) historyId fid t).state.links =
      st.links ∧
    (collectDevice st deviceId types (.connectFail msg) historyId fid t).state.interfaces =
      st.interfaces ∧
    (collectDevice st deviceId types (.connectFail msg) historyId fid t).result.success =
      false ∧
    (collectDevice st deviceId types (.connectFail msg) historyId fid t).result.error =
      some msg ∧
    (collectDevice st deviceId types (.connectFail msg) historyId fid t).result.lldpNeighbors =
      none ∧
    (collectDevice st deviceId types (.connectFail msg) historyId fid t).result.ospfNeighbors =
      none ∧
    (collectDevice st deviceId types (.connectFail msg) historyId fid t).result.interfaces =
      none ∧
    (collectDevice st deviceId types (.connectFail msg) historyId fid t).result.systemInfo =
      none ∧
    (∀ h ∈ (collectDevice st deviceId types (.connectFail msg) historyId fid t).state.history,
      h.id = historyId → h.status = "failed" ∧ h.error_message = some msg) ∧
    (∃ d2,
      (collectDevice st deviceId types (.connectFail msg) historyId fid
            t).state.devices.find? (fun x => x.id == deviceId) = some d2 ∧
        d2.status = "error") ∧
    (collectDevice st deviceId types (.connectFail msg) historyId fid t).sshConnected =
      false := by
  unfold collectDevice
  rw [hfind]
  refine ⟨rfl, rfl, rfl, rfl, rfl, rfl, rfl, rfl, rfl, ?_, ?_, rfl⟩
  · intro h hh hid
    have hh2 : h ∈ (st.history ++ [mkRunningHistory historyId deviceId types t]).map
        (fun h => if h.id == historyId then
          { h with status := "failed", completed_at := some t, error_message := some msg }
        else h) := hh
    exact history_after_fail h hh2 hid
  · exact find?_status_after_update hfind

/-- Witness for C5 at a concrete failed session open. -/
theorem session_open_failure_witness :
    (collectDevice wState 1 ["lldp"] (.connectFail "auth failed") 50 60 3).state.neighbors =
      wState.neighbors ∧
    (collectDevice wState 1 ["lldp"] (.connectFail "auth failed") 50 60 3).state.links =
      wState.links ∧
    (collectDevice wState 1 ["lldp"] (.connectFail "auth failed") 50 60 3).result.error =
      some "auth failed" ∧
    (∃ d2,
      (collectDevice wState 1 ["lldp"] (.connectFail "auth failed") 50 60
            3).state.devices.find? (fun x => x.id == 1) = some d2 ∧
        d2.status = "error") :=
  ⟨(session_open_failure wState 1 ["lldp"] "auth failed" 50 60 3 wDev1 (by decide)).1,
   (session_open_failure wState 1 ["lldp"] "auth failed" 50 60 3 wDev1 (by decide)).2.1,
   (session_open_failure wState 1 ["lldp"] "auth failed" 50 60 3 wDev1 (by decide)).2.2.2.2.1,
   (session_open_failure wState 1 ["lldp"] "auth failed" 50 60 3 wDev1
       (by decide)).2.2.2.2.2.2.2.2.2.2.1⟩

/-! ## C6 -/

/-- C6: when the session opens, the aggregate result is successful even
if individual operations failed or parsed empty; each operation's raw
output is independently handed to its vendor parse function (each
sub-result is a function of its own command's outcome only, so one
operation's empty or failed parse never aborts the others); and the
session ends closed on this and every other exit path of the request. -/
theorem session_ok_aggregate (st : DBState) (deviceId : Nat) (types : List String)
    (lldpR ospfR intfR sysR : SSHCommandResult) (historyId fid t : Nat) (d : NetworkDevice)
    (hfind : st.devices.find? (fun x => x.id == deviceId) = some d) :
    (collectDevice st deviceId types (.connectOk lldpR ospfR intfR sysR) historyId fid
        t).result.success = true ∧
    (collectDevice st deviceId types (.connectOk lldpR ospfR intfR sysR) historyId fid
        t).result.lldpNeighbors =
      (if types.contains "lldp" && lldpR.success then
        some ((getVendorParserSet d.vendor).parseLLDPNeighbors lldpR.output) else none) ∧
    (collectDevice st deviceId types (.connectOk lldpR ospfR intfR sysR) historyId fid
        t).result.ospfNeighbors =
      (if types.contains "ospf" && ospfR.success then
        some ((getVendorParserSet d.vendor).parseOSPFNeighbors ospfR.output) else none) ∧
    (collectDevice st deviceId types (.connectOk lldpR ospfR intfR sysR) historyId fid
        t).result.interfaces =
      (if types.contains "interfaces" && intfR.success then
        some ((getVendorParserSet d.vendor).parseInterfaces intfR.output) else none) ∧
    (collectDevice st deviceId types (.connectOk lldpR ospfR intfR sysR) historyId fid
        t).result.systemInfo =
      (if types.contains "system" && sysR.success then
        some ((getVendorParserSet d.vendor).parseSystemInfo sysR.output) else none) ∧
    (∀ beh, (collectDevice st deviceId types beh historyId fid t).sshConnected = false) := by
  refine ⟨?_, ?_, ?_, ?_, ?_, ?_⟩
  · unfold collectDevice; rw [hfind]
  · unfold collectDevice; rw [hfind]
  · unfold collectDevice; rw [hfind]
  · unfold collectDevice; rw [hfind]
  · unfold collectDevice; rw [hfind]
  · intro beh
    cases beh <;> (unfold collectDevice; rw [hfind])

/-- Witness for C6 at a concrete session: the OSPF command failed and
the LLDP output is empty, yet the attempt is successful and each parse
field follows its own command only. -/
theorem session_ok_aggregate_witness :
    (collectDevice wState 1 ["lldp", "ospf"]
        (.connectOk { success := true, output := "" } { success := false, output := "x" }
          { success := true, output := "" } { success := true, output := "" }) 50 60
        3).result.success = true ∧
    (collectDevice wState 1 ["lldp", "ospf"]
        (.connectOk { success := true, output := "" } { success := false, output := "x" }
          { success := true, output := "" } { success := true, output := "" }) 50 60
        3).result.lldpNeighbors =
      (if List.contains ["lldp", "ospf"] "lldp" && true then
        some ((getVendorParserSet wDev1.vendor).parseLLDPNeighbors "") else none) ∧
    (collectDevice wState 1 ["lldp", "ospf"]
        (.connectOk { success := true, output := "" } { success := false, output := "x" }
          { success := true, output := "" } { success := true, output := "" }) 50 60
        3).result.ospfNeighbors =
      (if List.contains ["lldp", "ospf"] "ospf" && false then
        some ((getVendorParserSet wDev1.vendor).parseOSPFNeighbors "x") else none) :=
  ⟨(session_ok_aggregate wState 1 ["lldp", "ospf"] { success := true, output := "" }
      { success := false, output := "x" } { success := true, output := "" }
      { success := true, output := "" } 50 60 3 wDev1 (by decide)).1,
   (session_ok_aggregate wState 1 ["lldp", "ospf"] { success := true, output := "" }
      { success := false, output := "x" } { success := true, output := "" }
      { success := true, output := "" } 50 60 3 wDev1 (by decide)).2.1,
   (session_ok_aggregate wState 1 ["lldp", "ospf"] { success := true, output := "" }
      { success := false, output := "x" } { success := true, output := "" }
      { success := true, output := "" } 50 60 3 wDev1 (by decide)).2.2.1⟩


/-! ## C7 -/

/-- C7: every vendor parse function in the registry is a pure total
function of the raw text: totality holds by construction in this
embedding because the source performs no throwing operation (array
indexing yields undefined, modelled as Option; numeric parsing is
defensive; regex evaluation cannot throw), and for every vendor tag --
including the `other` fallback -- and every input string, arbitrary
malformed text included, each list parser returns an ordered list with
at most one record per input line while the system-info parser returns
a record. -/
theorem vendor_parse_total (v : VendorType) (s : String) :
    ((getVendorParserSet v).parseLLDPNeighbors s).length ≤ (splitOnChar '\n' s).length ∧
    ((getVendorParserSet v).parseOSPFNeighbors s).length ≤ (splitOnChar '\n' s).length ∧
    ((getVendorParserSet v).parseInterfaces s).length ≤ (splitOnChar '\n' s).length ∧
    ∃ info, (getVendorParserSet v).parseSystemInfo s = info := by
  cases v <;>
    exact ⟨List.length_filterMap_le _ _, List.length_filterMap_le _ _,
      List.length_filterMap_le _ _, ⟨_, rfl⟩⟩

/-! ## C8 helper lemmas -/

theorem huawei_lldpLine_skip {l : String} (h : Huawei.isSkipLine l = true) :
    Huawei.lldpLine l = none := by
  simp only [Huawei.isSkipLine] at h
  simp only [Huawei.lldpLine]
  rw [h]
  simp

theorem huawei_lldpLine_data {l : String} (h : Huawei.isDataLine l = true) :
    Huawei.lldpLine l = some (Huawei.dataRecord l) := by
  simp only [Huawei.isDataLine, Bool.and_eq_true] at h
  obtain ⟨⟨hskip, hlen⟩, hpre⟩ := h
  rw [Bool.not_eq_true'] at hskip
  simp only [Huawei.isSkipLine] at hskip
  have hlen' : 3 ≤ (wsTokens (jsTrim l)).length := of_decide_eq_true hlen
  simp only [Huawei.lldpLine, Huawei.dataRecord]
  rw [hskip]
  simp only [List.get?_eq_getElem?] at hpre
  simp [hpre, hlen']

theorem huawei_filterMap_data :
    ∀ (ds : List String), (∀ l ∈ ds, Huawei.isDataLine l = true) →
      ds.filterMap Huawei.lldpLine = ds.map Huawei.dataRecord := by
  intro ds
  induction ds with
  | nil => intro _; rfl
  | cons a as ih =>
      intro hds
      rw [List.filterMap_cons, huawei_lldpLine_data (hds a (List.mem_cons_self a as)),
        List.map_cons, ih (fun l hl => hds l (List.mem_cons_of_mem a hl))]

theorem huawei_filterMap_skip :
    ∀ (ds : List String), (∀ l ∈ ds, Huawei.isSkipLine l = true) →
      ds.filterMap Huawei.lldpLine = [] := by
  intro ds
  induction ds with
  | nil => intro _; rfl
  | cons a as ih =>
      intro hds
      rw [List.filterMap_cons, huawei_lldpLine_skip (hds a (List.mem_cons_self a as)),
        ih (fun l hl => hds l (List.mem_cons_of_mem a hl))]

/-! ## C8 -/

/-- C8: a raw Huawei LLDP block of header/separator lines, then N
well-formed data lines, then trailing skippable lines parses to exactly
N neighbor records, field-mapped in order from columns 1-3 of each data
line (with the incidental in-line IPv4 extraction). -/
theorem huawei_lldp_block_count (pre data post : List String)
    (hpre : ∀ l ∈ pre, Huawei.isSkipLine l = true)
    (hdata : ∀ l ∈ data, Huawei.isDataLine l = true)
    (hpost : ∀ l ∈ post, Huawei.isSkipLine l = true) :
    (pre ++ data ++ post).filterMap Huawei.lldpLine = data.map Huawei.dataRecord ∧
    ((pre ++ data ++ post).filterMap Huawei.lldpLine).length = data.length := by
  have hmain : (pre ++ data ++ post).filterMap Huawei.lldpLine = data.map Huawei.dataRecord := by
    rw [List.filterMap_append, List.filterMap_append, huawei_filterMap_skip pre hpre,
      huawei_filterMap_skip post hpost, huawei_filterMap_data data hdata]
    simp
  exact ⟨hmain, by rw [hmain, List.length_map]⟩

/-- Witness for C8 on the spec's concrete four-line Huawei block:
exactly four records, with localInterface / remoteDeviceName /
remoteInterface taken from columns 1-3. -/
theorem huawei_lldp_block_count_witness :
    (wHuaweiHeaderLines ++ wHuaweiDataLines ++ []).filterMap Huawei.lldpLine =
      wHuaweiDataLines.map Huawei.dataRecord ∧
    ((wHuaweiHeaderLines ++ wHuaweiDataLines ++ []).filterMap Huawei.lldpLine).length = 4 ∧
    Huawei.dataRecord "GE0/0/1 SW-DIST-01 GE0/0/24" =
      { localInterface := "GE0/0/1", remoteDeviceName := "SW-DIST-01",
        remoteInterface := "GE0/0/24", remoteIP := none,
        rawData := [("originalLine", "GE0/0/1 SW-DIST-01 GE0/0/24")] } :=
  ⟨(huawei_lldp_block_count wHuaweiHeaderLines wHuaweiDataLines [] (by decide) (by decide)
      (by decide)).1,
   (huawei_lldp_block_count wHuaweiHeaderLines wHuaweiDataLines [] (by decide) (by decide)
      (by decide)).2,
   by decide⟩

/-! ## C9 helper lemmas -/

theorem foldl_min_le_init (g : SimNode → ℚ) :
    ∀ (l : List SimNode) (a : ℚ), l.foldl (fun m n => min m (g n)) a ≤ a := by
  intro l
  induction l with
  | nil => intro a; exact le_refl a
  | cons n ns ih => intro a; exact le_trans (ih (min a (g n))) (min_le_left _ _)

theorem foldl_min_le_mem (g : SimNode → ℚ) :
    ∀ (l : List SimNode) (a : ℚ), ∀ n ∈ l, l.foldl (fun m n => min m (g n)) a ≤ g n := by
  intro l
  induction l with
  | nil => intro a n h; simp at h
  | cons m ms ih =>
      intro a n hn
      rcases List.mem_cons.mp hn with rfl | h2
      · exact le_trans (foldl_min_le_init g ms (min a (g n))) (min_le_right _ _)
      · exact ih _ n h2

theorem foldl_max_ge_init (g : SimNode → ℚ) :
    ∀ (l : List SimNode) (a : ℚ), a ≤ l.foldl (fun m n => max m (g n)) a := by
  intro l
  induction l with
  | nil => intro a; exact le_refl a
  | cons n ns ih => intro a; exact le_trans (le_max_left _ _) (ih (max a (g n)))

theorem foldl_max_ge_mem (g : SimNode → ℚ) :
    ∀ (l : List SimNode) (a : ℚ), ∀ n ∈ l, g n ≤ l.foldl (fun m n => max m (g n)) a := by
  intro l
  induction l with
  | nil => intro a n h; simp at h
  | cons m ms ih =>
      intro a n hn
      rcases List.mem_cons.mp hn with rfl | h2
      · exact le_trans (le_max_right _ _) (foldl_max_ge_init g ms (max a (g n)))
      · exact ih _ n h2

theorem minXOf_le {ns : List SimNode} {n : SimNode} (h : n ∈ ns) : minXOf ns ≤ n.x := by
  cases ns with
  | nil => simp at h
  | cons h0 tl =>
      rcases List.mem_cons.mp h with rfl | h2
      · exact foldl_min_le_init (fun n => n.x) tl n.x
      · exact foldl_min_le_mem (fun n => n.x) tl h0.x n h2

theorem maxXOf_ge {ns : List SimNode} {n : SimNode} (h : n ∈ ns) : n.x ≤ maxXOf ns := by
  cases ns with
  | nil => simp at h
  | cons h0 tl =>
      rcases List.mem_cons.mp h with rfl | h2
      · exact foldl_max_ge_init (fun n => n.x) tl n.x
      · exact foldl_max_ge_mem (fun n => n.x) tl h0.x n h2

theorem minYOf_le {ns : List SimNode} {n : SimNode} (h : n ∈ ns) : minYOf ns ≤ n.y := by
  cases ns with
  | nil => simp at h
  | cons h0 tl =>
      rcases List.mem_cons.mp h with rfl | h2
      · exact foldl_min_le_init (fun n => n.y) tl n.y
      · exact foldl_min_le_mem (fun n => n.y) tl h0.y n h2

theorem maxYOf_ge {ns : List SimNode} {n : SimNode} (h : n ∈ ns) : n.y ≤ maxYOf ns := by
  cases ns with
  | nil => simp at h
  | cons h0 tl =>
      rcases List.mem_cons.mp h with rfl | h2
      · exact foldl_max_ge_init (fun n => n.y) tl n.y
      · exact foldl_max_ge_mem (fun n => n.y) tl h0.y n h2

theorem rescale_bound {lo hi v : ℚ} (hlo : lo ≤ v) (hhi : v ≤ hi) (c : ℚ) (hc : 0 ≤ c) :
    0 ≤ (v - lo) / (if hi - lo = 0 then 1 else hi - lo) * c ∧
      (v - lo) / (if hi - lo = 0 then 1 else hi - lo) * c ≤ c := by
  by_cases h0 : hi - lo = 0
  · rw [if_pos h0]
    have hv : v = lo := le_antisymm (by linarith) hlo
    rw [hv]
    simp [hc]
  · rw [if_neg h0]
    have hpos : 0 < hi - lo := lt_of_le_of_ne (by linarith) (Ne.symm h0)
    have hr0 : 0 ≤ (v - lo) / (hi - lo) := div_nonneg (by linarith) (le_of_lt hpos)
    have hr1 : (v - lo) / (hi - lo) ≤ 1 := (div_le_one hpos).mpr (by linarith)
    constructor
    · exact mul_nonneg hr0 hc
    · calc (v - lo) / (hi - lo) * c ≤ 1 * c := mul_le_mul_of_nonneg_right hr1 hc
        _ = c := one_mul c

theorem normalizePositions_bounds (ns : List SimNode) :
    ∀ p ∈ normalizePositions ns,
      layoutPadding ≤ p.x ∧ p.x ≤ layoutWidth - layoutPadding ∧
        layoutPadding ≤ p.y ∧ p.y ≤ layoutHeight - layoutPadding := by
  intro p hp
  unfold normalizePositions at hp
  obtain ⟨n, hn, rfl⟩ := List.mem_map.mp hp
  have hx := rescale_bound (minXOf_le hn) (maxXOf_ge hn) (layoutWidth - layoutPadding * 2)
    (by norm_num [layoutWidth, layoutPadding])
  have hy := rescale_bound (minYOf_le hn) (maxYOf_ge hn) (layoutHeight - layoutPadding * 2)
    (by norm_num [layoutHeight, layoutPadding])
  refine ⟨by dsimp only; linarith [hx.1], by dsimp only; linarith [hx.2],
    by dsimp only; linarith [hy.1], by dsimp only; linarith [hy.2]⟩

/-! ## C9 -/

/-- C9: after the fixed iteration count, min/max normalisation places
every output coordinate of `calculateLayout` inside the padded canvas
[100, 700] x [100, 500], for every node set (each member of the output,
so in particular every node of a non-empty set), every edge set, every
initial arrangement (grid or otherwise, degenerate coincident positions
included), and every square-root implementation. -/
theorem layout_in_canvas (sqrtQ : ℚ → ℚ) (nodes : List TopologyNode)
    (edges : List TopologyEdge) :
    ∀ p ∈ calculateLayout sqrtQ nodes edges,
      (100 : ℚ) ≤ p.x ∧ p.x ≤ 700 ∧ (100 : ℚ) ≤ p.y ∧ p.y ≤ 500 := by
  intro p hp
  unfold calculateLayout at hp
  have h := normalizePositions_bounds _ p hp
  norm_num [layoutPadding, layoutWidth, layoutHeight] at h
  exact ⟨h.1, h.2.1, h.2.2.1, h.2.2.2⟩

theorem repPairStep_length (sq : ℚ → ℚ) (ns : List SimNode) (ab : Nat × Nat) :
    (repPairStep sq ns ab).length = ns.length := by
  unfold repPairStep
  cases h1 : ns.get? ab.1 <;> cases h2 : ns.get? ab.2 <;> simp

theorem attrStep_length (sq : ℚ → ℚ) (ns : List SimNode) (e : TopologyEdge) :
    (attrStep sq ns e).length = ns.length := by
  unfold attrStep
  split
  · split
    · simp
    · rfl
  · rfl

theorem foldl_length_preserved {β : Type} (f : List SimNode → β → List SimNode)
    (hf : ∀ ns b, (f ns b).length = ns.length) :
    ∀ (l : List β) (ns : List SimNode), (l.foldl f ns).length = ns.length := by
  intro l
  induction l with
  | nil => intro ns; rfl
  | cons b bs ih => intro ns; rw [List.foldl_cons, ih, hf]

theorem layoutIter_length (sq : ℚ → ℚ) (edges : List TopologyEdge) (ns : List SimNode) :
    (layoutIter sq edges ns).length = ns.length := by
  unfold layoutIter integrateStep applyRepulsion
  rw [List.length_map, foldl_length_preserved _ (attrStep_length sq) edges,
    foldl_length_preserved _ (repPairStep_length sq) (pairIdxList ns.length)]

theorem iterateLayout_length (sq : ℚ → ℚ) (edges : List TopologyEdge) :
    ∀ (k : Nat) (ns : List SimNode), (iterateLayout sq edges k ns).length = ns.length := by
  intro k
  induction k with
  | zero => intro ns; rfl
  | succ m ih =>
      intro ns
      unfold iterateLayout
      rw [ih, layoutIter_length]

theorem calculateLayout_length (sq : ℚ → ℚ) (nodes : List TopologyNode)
    (edges : List TopologyEdge) :
    (calculateLayout sq nodes edges).length = nodes.length := by
  unfold calculateLayout normalizePositions
  rw [List.length_map, iterateLayout_length, List.length_map]

/-- Witness for C9: the layout of a single node (a degenerate,
all-coincident set) is a single node, and it sits inside the canvas. -/
theorem layout_in_canvas_witness :
    ∃ q, q ∈ calculateLayout (fun _ => 0) [{ id := 1, x := 5, y := 7 }] [] ∧
      (100 : ℚ) ≤ q.x ∧ q.x ≤ 700 ∧ (100 : ℚ) ≤ q.y ∧ q.y ≤ 500 := by
  obtain ⟨q, hq⟩ : ∃ q, calculateLayout (fun _ => 0) [{ id := 1, x := 5, y := 7 }] [] = [q] :=
    List.length_eq_one.mp (calculateLayout_length (fun _ => 0) [{ id := 1, x := 5, y := 7 }] [])
  have hmem : q ∈ calculateLayout (fun _ => 0) [{ id := 1, x := 5, y := 7 }] [] := by
    rw [hq]
    exact List.mem_singleton.mpr rfl
  exact ⟨q, hmem, layout_in_canvas (fun _ => 0) [{ id := 1, x := 5, y := 7 }] [] q hmem⟩

end NetWeaver
